import Mathlib

/-!
Shallow embedding of the output-history subsystem of libfizmo
(src/src/interpreter/history.c): a bounded wrap-around buffer of wide
code units with in-band metadata records, together with the read-side
cursor (`history_output`).  Pointers of the C code are modelled as
offsets from `z_history_buffer_start`; the guard cell that the C code
keeps one past `z_history_buffer_end` is the last cell of `buf`.
Machine integers are modelled as `Int`/`Nat` with explicit reductions
modulo powers of two at the points where the C code relies on
wrap-around of unsigned arithmetic.  The fatal
`i18n_translate_and_exit` hook is modelled as the error side of
`Except`, and the loops of the C code are given explicit fuel; running
out of fuel is a distinguished error so it can never be confused with
an actual result of the program.
-/

/-- Escape code unit that starts a metadata record (`HISTORY_METADATA_ESCAPE`
in history.c: the value 0, per the file comment and the spec). -/
def HISTORY_METADATA_ESCAPE : Int := 0

/-- Modelled from the spec: history.h is not part of src/; the spec fixes
the escape (0), the record shapes and the parameter offset (13), and the
four record-type tags are modelled as the distinct values 1,2,3,4. -/
def HISTORY_METADATA_TYPE_FONT : Int := 1

/-- Modelled from the spec: record-type tag for style records. -/
def HISTORY_METADATA_TYPE_STYLE : Int := 2

/-- Modelled from the spec: record-type tag for colour records. -/
def HISTORY_METADATA_TYPE_COLOUR : Int := 3

/-- Modelled from the spec: record-type tag for paragraph-attribute records. -/
def HISTORY_METADATA_TYPE_PARAGRAPHATTRIBUTE : Int := 4

/-- Offset added to every metadata parameter before it is stored
(`HISTORY_METADATA_DATA_OFFSET` = 13 per the spec). -/
def HISTORY_METADATA_DATA_OFFSET : Int := 13

/-- Modelled from the spec: the state-block size
`Z_HISTORY_METADATA_STATE_BLOCK_SIZE` lives in the missing header; the
spec gives 256 as its size. -/
def Z_HISTORY_METADATA_STATE_BLOCK_SIZE : Int := 256

/-- Newline code unit (`Z_UCS_NEWLINE`). -/
def Z_UCS_NEWLINE : Int := 10

/-- Modelled from the spec: `Z_COLOUR_UNDEFINED` is the value -2
("the lowest allowed value for Z_COLOUR_UNDEFINED" in history.c,
"-2 denotes undefined" in the spec). -/
def Z_COLOUR_UNDEFINED : Int := -2

/-- Modelled from the spec: palette index used for the colour named
white in the spec's scenarios (Z-machine palette index 9). -/
def Z_COLOUR_WHITE : Int := 9

/-- Modelled from the spec: palette index used for the colour named
black in the spec's scenarios (Z-machine palette index 2). -/
def Z_COLOUR_BLACK : Int := 2

/-- Staging-buffer size used by `output_repeat_paragraphs`
(`REPEAT_PARAGRAPH_BUF_SIZE`). -/
def REPEAT_PARAGRAPH_BUF_SIZE : Nat := 1280

/-- Fatal conditions: `i18n_translate_and_exit` calls of history.c, plus
distinguished markers of the model for exhausted loop fuel and for a
read of memory whose contents the function's inputs do not determine
(the store's wrap loop can read past the end of its input). -/
inductive HErr where
  | noLongerValid : HErr
  | invalidParam : HErr
  | outOfFuel : HErr
  | undefinedRead : HErr
deriving DecidableEq, Repr

/-- Size of the `z_ucs` character type in bytes.  The type itself is
declared in a header outside src/; libfizmo builds it as a 32-bit type,
and the byte-counted `memcpy` of `store_data_in_history` is modelled
with this width and little-endian byte order. -/
def Z_UCS_SIZE : Nat := 4

/-- Events sent to a caller-supplied `history_output_target`. -/
inductive TargetEvent where
  | text : List Int → TargetEvent
  | setFont : Int → TargetEvent
  | setTextStyle : Int → TargetEvent
  | setColour : Int → Int → Int → TargetEvent
deriving DecidableEq, Repr

/-- The `OUTPUTHISTORY` structure of history.c.  `buf` holds
`z_history_buffer_size + 1` cells when allocated (the extra cell is the
guard written by `try_to_enlarge_buffer`); all pointer fields are kept
as offsets from `z_history_buffer_start`.  `paragraph_removal_active`
models whether the global `paragraph_removal_function` pointer is
non-null, and `removal_log` records the calls made through it. -/
structure OUTPUTHISTORY where
  window_number : Int
  z_history_buffer_size : Nat
  z_history_maximum_buffer_size : Nat
  z_history_buffer_increment_size : Nat
  buf : Array Int
  z_history_buffer_front_index : Nat
  z_history_buffer_back_index : Nat
  nof_wraparounds : Nat
  last_metadata_block_index : Int
  next_newline_after_buffer_back : Option Nat
  history_buffer_back_index_font : Int
  history_buffer_back_index_style : Int
  history_buffer_back_index_foreground : Int
  history_buffer_back_index_background : Int
  history_buffer_front_index_font : Int
  history_buffer_front_index_style : Int
  history_buffer_front_index_foreground : Int
  history_buffer_front_index_background : Int
  paragraph_removal_active : Bool
  removal_log : List (Int × Int)
deriving DecidableEq, Repr

/-- The `create_outputhistory` constructor (allocation is assumed to
succeed; the buffer itself stays unallocated, size 0). -/
def create_outputhistory (window_number : Int)
    (maximum_buffer_size buffer_increment_size : Nat)
    (foreground_colour background_color font style : Int) : OUTPUTHISTORY :=
  { window_number := window_number
    z_history_buffer_size := 0
    z_history_maximum_buffer_size := maximum_buffer_size
    z_history_buffer_increment_size := buffer_increment_size
    buf := #[]
    z_history_buffer_front_index := 0
    z_history_buffer_back_index := 0
    nof_wraparounds := 0
    last_metadata_block_index := 0
    next_newline_after_buffer_back := none
    history_buffer_back_index_font := font
    history_buffer_back_index_style := style
    history_buffer_back_index_foreground := foreground_colour
    history_buffer_back_index_background := background_color
    history_buffer_front_index_font := font
    history_buffer_front_index_style := style
    history_buffer_front_index_foreground := foreground_colour
    history_buffer_front_index_background := background_color
    paragraph_removal_active := false
    removal_log := [] }

/-- Dereference a buffer offset.  All reads made by the claims'
scenarios are in bounds; the guard cell (offset `size`) holds 0 exactly
as in the C code. -/
def readBuf (h : OUTPUTHISTORY) (i : Nat) : Int :=
  h.buf.getD i 0

/-- Dereference an optional offset (a pointer that may be NULL in the C
code; the C code would crash on NULL, the scenarios never reach it). -/
def readBufOpt (h : OUTPUTHISTORY) (i : Option Nat) : Int :=
  match i with
  | none => 0
  | some j => readBuf h j

/-- Linear write of `data` starting at offset `pos` (`z_ucs_ncpy`). -/
def writeBuf (b : Array Int) (pos : Nat) (data : List Int) : Array Int :=
  match data with
  | [] => b
  | c :: rest => writeBuf (b.setD pos c) (pos + 1) rest

/-- Advance an offset by one cell, wrapping from `z_history_buffer_end`
to `z_history_buffer_start` (the pervasive
`current_index == end ? start : current_index + 1` idiom). -/
def advanceIdx (h : OUTPUTHISTORY) (i : Nat) : Nat :=
  if i = h.z_history_buffer_size - 1 then 0 else i + 1

/-- Advance-with-wrap in the `if (++p > end) p = start` form used by
`output_repeat_paragraphs` and `alter_last_paragraph_attributes`. -/
def wrapInc (h : OUTPUTHISTORY) (i : Nat) : Nat :=
  if i + 1 > h.z_history_buffer_size - 1 then 0 else i + 1

/-- Decrement of a C `unsigned int`, wrapping at zero. -/
def decUInt32 (n : Nat) : Nat :=
  (n + (2 ^ 32 - 1)) % 2 ^ 32

/-- The `get_buffer_space_used` helper of history.c (pointer differences
computed as integers). -/
def get_buffer_space_used (h : OUTPUTHISTORY) : Int :=
  if h.z_history_buffer_size = 0 then 0
  else if h.nof_wraparounds = 0 then
    (h.z_history_buffer_front_index : Int) - h.z_history_buffer_back_index + 1
  else
    (h.z_history_buffer_size : Int)
      - ((h.z_history_buffer_back_index : Int) - h.z_history_buffer_front_index)

/-- The `get_buffer_space_available` helper of history.c. -/
def get_buffer_space_available (h : OUTPUTHISTORY) : Int :=
  if h.z_history_buffer_size = 0 then 0
  else if h.nof_wraparounds = 0 then
    ((h.z_history_buffer_size : Int) - 1) - h.z_history_buffer_front_index + 1
  else
    (h.z_history_buffer_back_index : Int) - h.z_history_buffer_front_index

/-- The `try_to_enlarge_buffer` helper: reallocation is modelled as
succeeding; cells beyond the old allocation are indeterminate in C and
modelled as 0; the guard cell one past the new end is set to 0. -/
def try_to_enlarge_buffer (h : OUTPUTHISTORY) (desired_z_ucs_size : Nat) :
    OUTPUTHISTORY :=
  let grown := h.buf ++ Array.mkArray (desired_z_ucs_size + 1 - h.buf.size) 0
  let grown := grown.setD desired_z_ucs_size 0
  { h with
    z_history_buffer_size := desired_z_ucs_size
    buf := grown }

/-- The `decrement_buffer_pointer` primitive: steps an offset backwards,
wrapping from start to end and decrementing the caller's local
wrap-around counter; `none` models the NULL return. -/
def decrement_buffer_pointer (h : OUTPUTHISTORY) (ptr : Nat)
    (nof_wraparounds : Nat) : Option (Nat × Nat) :=
  if ptr = h.z_history_buffer_back_index ∧
      ptr = h.z_history_buffer_front_index ∧ nof_wraparounds > 0 then
    none
  else if ptr = 0 then
    if h.nof_wraparounds = 0 then none
    else some (h.z_history_buffer_size - 1, decUInt32 nof_wraparounds)
  else
    some (ptr - 1, nof_wraparounds)

/-- One iteration of the `do { ... } while (nof_zucs_chars > 0)` body of
`process_buffer_back`: clears the cached newline position when reached,
decodes a metadata record when the current cell is the escape (updating
the back-index state, logging a paragraph-removal call for
paragraph-attribute records when no newline is cached), then advances
one cell.  Returns the updated history, offset and remaining count. -/
def pbb_step (h : OUTPUTHISTORY) (idx : Nat) (n : Int) :
    Except HErr (OUTPUTHISTORY × Nat × Int) := do
  let h := if h.next_newline_after_buffer_back = some idx then
      { h with next_newline_after_buffer_back := none }
    else h
  let (h, idx, n) ←
    if readBuf h idx = HISTORY_METADATA_ESCAPE then do
      let idx := advanceIdx h idx
      let n := n - 1
      let t := readBuf h idx
      if t = HISTORY_METADATA_ESCAPE then
        Except.ok (h, idx, n)
      else if t = HISTORY_METADATA_TYPE_FONT then
        let idx := advanceIdx h idx
        Except.ok ({ h with history_buffer_back_index_font := readBuf h idx },
          idx, n - 1)
      else if t = HISTORY_METADATA_TYPE_STYLE then
        let idx := advanceIdx h idx
        Except.ok ({ h with history_buffer_back_index_style := readBuf h idx },
          idx, n - 1)
      else if t = HISTORY_METADATA_TYPE_COLOUR then
        let idx := advanceIdx h idx
        let h := { h with
          history_buffer_back_index_foreground := readBuf h idx }
        let idx := advanceIdx h idx
        Except.ok ({ h with
          history_buffer_back_index_background := readBuf h idx },
          idx, n - 2)
      else if t = HISTORY_METADATA_TYPE_PARAGRAPHATTRIBUTE then
        let idx := advanceIdx h idx
        let buf1 := readBuf h idx
        let idx := advanceIdx h idx
        let h :=
          if h.paragraph_removal_active ∧
              h.next_newline_after_buffer_back = none then
            { h with removal_log := h.removal_log ++
                [(buf1 - HISTORY_METADATA_DATA_OFFSET,
                  readBuf h idx - HISTORY_METADATA_DATA_OFFSET)] }
          else h
        Except.ok (h, idx, n - 2)
      else
        Except.error HErr.invalidParam
    else
      Except.ok (h, idx, n)
  Except.ok (h, advanceIdx h idx, n - 1)

/-- The `do ... while` loop of `process_buffer_back`, with fuel. -/
def pbb_go : Nat → OUTPUTHISTORY → Nat → Int →
    Except HErr (OUTPUTHISTORY × Nat)
  | 0, _, _, _ => Except.error HErr.outOfFuel
  | fuel + 1, h, idx, n => do
    let (h, idx, n) ← pbb_step h idx n
    if n > 0 then pbb_go fuel h idx n else Except.ok (h, idx)

/-- The trailing search of `process_buffer_back` that walks forward to
the next newline at or after the new back index, decoding paragraph
attributes on the way (only run when a removal callback is registered
and no newline position is cached). -/
def pbb_search : Nat → OUTPUTHISTORY → Nat →
    Except HErr (OUTPUTHISTORY × Nat)
  | 0, _, _ => Except.error HErr.outOfFuel
  | fuel + 1, h, idx =>
    if readBuf h idx = Z_UCS_NEWLINE then Except.ok (h, idx)
    else if idx = h.z_history_buffer_front_index then Except.ok (h, idx)
    else
      let idx := advanceIdx h idx
      if readBuf h idx = HISTORY_METADATA_ESCAPE then
        let idx := advanceIdx h idx
        let buf1 := readBuf h idx
        let idx := advanceIdx h idx
        let buf2 := readBuf h idx
        if buf1 = HISTORY_METADATA_TYPE_PARAGRAPHATTRIBUTE ∨
            buf1 = HISTORY_METADATA_TYPE_COLOUR then
          let idx := advanceIdx h idx
          let h :=
            if buf1 = HISTORY_METADATA_TYPE_PARAGRAPHATTRIBUTE then
              { h with removal_log := h.removal_log ++
                  [(buf2 - HISTORY_METADATA_DATA_OFFSET,
                    readBuf h idx - HISTORY_METADATA_DATA_OFFSET)] }
            else h
          pbb_search fuel h idx
        else
          pbb_search fuel h idx
      else
        pbb_search fuel h idx

/-- The `process_buffer_back` function of history.c: scans forward from
the front index over `nof_zucs_chars` cells about to be overwritten,
applying drained metadata to the back-index state.  The loop consumes at
least one unit per iteration, so fuel `toNat + 1` always suffices. -/
def process_buffer_back (h : OUTPUTHISTORY) (nof_zucs_chars : Int) :
    Except HErr OUTPUTHISTORY := do
  let (h, idx) ← pbb_go (nof_zucs_chars.toNat + 1) h
    h.z_history_buffer_front_index nof_zucs_chars
  if h.paragraph_removal_active ∧
      h.next_newline_after_buffer_back = none then do
    let (h, idx2) ← pbb_search (h.z_history_buffer_size + 8)
      { h with next_newline_after_buffer_back := some idx } idx
    Except.ok { h with next_newline_after_buffer_back := some idx2 }
  else
    Except.ok h

/-- The `while (len > 0)` wrap-around phase of `store_data_in_history`:
drains the region about to be overwritten, writes, advances the front
with wrap, and keeps `back = front` (buffer completely filled).
`data` holds the cells of known content readable at the data pointer;
an iteration that would copy past them reads memory the inputs do not
determine and fails with `undefinedRead`. -/
def store_data_wrap_loop : Nat → OUTPUTHISTORY → List Int → Nat →
    Except HErr OUTPUTHISTORY
  | _, h, _, 0 => Except.ok h
  | 0, _, _, _ + 1 => Except.error HErr.outOfFuel
  | fuel + 1, h, data, len + 1 => do
    let len := len + 1
    let len_to_write :=
      if (h.z_history_buffer_front_index : Int) + len - 1 >
          (h.z_history_buffer_size : Int) - 1 then
        (((h.z_history_buffer_size : Int) - 1)
          - h.z_history_buffer_front_index + 1).toNat
      else len
    let h ← process_buffer_back h len_to_write
    if data.length < len_to_write then Except.error HErr.undefinedRead
    else
      let h := { h with
        buf := writeBuf h.buf h.z_history_buffer_front_index
          (data.take len_to_write) }
      let front := h.z_history_buffer_front_index + len_to_write
      let front := if front = h.z_history_buffer_size then 0 else front
      let h := { h with
        z_history_buffer_front_index := front
        z_history_buffer_back_index := front }
      store_data_wrap_loop fuel h (data.drop len_to_write)
        (len - len_to_write)

/-- The body of `store_data_in_history` without the final state-block
evaluation (which is applied by `store_data_in_history` below; the C
code reaches it on every path on which `evaluate_state_block` is
checked).  `len` mirrors the C length argument; `data` holds the cells
of known content readable at the data pointer and can be longer than
`len` (`store_z_ucs_output_in_history` includes the string's 0
terminator).  Two quirks of the source are kept: after a partial
first-phase write the source advances `data` by `len_to_write` but
enters the wrap loop with `len` undecremented, so the loop copies
`len_to_write` cells read past the input's end; and the `memcpy` of the
overlong-input branch counts bytes, not `z_ucs` units, so it copies
`(len - Nmax) / 4` whole cells plus the low `(len - Nmax) % 4` bytes of
the next cell (4-byte little-endian `z_ucs`). -/
def store_data_raw (h : OUTPUTHISTORY) (data : List Int) (len : Nat) :
    Except HErr OUTPUTHISTORY :=
  if len ≥ h.z_history_maximum_buffer_size then do
    let h ← process_buffer_back h (get_buffer_space_used h)
    let h :=
      if h.z_history_buffer_size < h.z_history_maximum_buffer_size then
        try_to_enlarge_buffer h h.z_history_maximum_buffer_size
      else h
    let nof_bytes := len - h.z_history_maximum_buffer_size
    let q := nof_bytes / Z_UCS_SIZE
    let r := nof_bytes % Z_UCS_SIZE
    let b := writeBuf h.buf 0 (data.take q)
    let b :=
      if r = 0 then b
      else
        let m : Int := 2 ^ (8 * r)
        let src := data.getD q 0 % m
        let old := b.getD q 0
        b.setD q (src + old - old % m)
    Except.ok { h with
      buf := b
      z_history_buffer_front_index := 0
      z_history_buffer_back_index := h.z_history_buffer_size - 1 }
  else do
    let h :=
      if get_buffer_space_available h < (len : Int) then
        let missing_space := ((len : Int) - get_buffer_space_available h).toNat
        let nof_increments :=
          missing_space / h.z_history_buffer_increment_size + 1
        let new_size := h.z_history_buffer_size
          + nof_increments * h.z_history_buffer_increment_size
        let desired_size :=
          if new_size > h.z_history_maximum_buffer_size then
            h.z_history_maximum_buffer_size
          else new_size
        if desired_size > h.z_history_buffer_size then
          try_to_enlarge_buffer h desired_size
        else h
      else h
    let cut := if h.z_history_buffer_size < len then
        some (len - h.z_history_buffer_size) else none
    let data := match cut with
      | some k => data.drop k
      | none => data
    let len : Nat := match cut with
      | some _ => h.z_history_buffer_size
      | none => len
    if h.nof_wraparounds = 0 then do
      let space_available : Int :=
        ((h.z_history_buffer_size : Int) - 1)
          - h.z_history_buffer_front_index + 1
      let len_to_write : Nat :=
        if space_available > (len : Int) then len else space_available.toNat
      let h :=
        if len_to_write > 0 then
          { h with
            buf := writeBuf h.buf h.z_history_buffer_front_index
              (data.take len_to_write)
            z_history_buffer_front_index :=
              h.z_history_buffer_front_index + len_to_write }
        else h
      let data := data.drop len_to_write
      if len_to_write = len then
        Except.ok h
      else
        let w := (h.nof_wraparounds + 1) % 2 ^ 32
        let w := if w = 0 then 1 else w
        let h := { h with
          nof_wraparounds := w
          z_history_buffer_front_index := 0 }
        store_data_wrap_loop len h data len
    else
      store_data_wrap_loop len h data len

/-- The `store_metadata_in_history` function: validates colour
parameters (fatal when out of `[-2, 15]`), updates the front-index state
for FONT/STYLE/COLOUR, and stores the escaped record via
`store_data_in_history` with the state-block tick disabled.  In the C
source the assignment to `history_buffer_front_index_background` sits
after `i18n_translate_and_exit` inside the out-of-range branch and is
therefore unreachable, so no reachable path updates that field. -/
def store_metadata_in_history (h : OUTPUTHISTORY) (metadata_type : Int)
    (p1 p2 : Int) : Except HErr (OUTPUTHISTORY × Int) :=
  if metadata_type ≠ HISTORY_METADATA_TYPE_FONT ∧
      metadata_type ≠ HISTORY_METADATA_TYPE_STYLE ∧
      metadata_type ≠ HISTORY_METADATA_TYPE_COLOUR ∧
      metadata_type ≠ HISTORY_METADATA_TYPE_PARAGRAPHATTRIBUTE then
    Except.ok (h, -1)
  else do
    let parameter := p1
    if metadata_type = HISTORY_METADATA_TYPE_COLOUR ∧
        (parameter < -2 ∨ parameter > 15) then
      Except.error HErr.invalidParam
    else
      let h :=
        if metadata_type = HISTORY_METADATA_TYPE_FONT then
          { h with history_buffer_front_index_font := parameter }
        else if metadata_type = HISTORY_METADATA_TYPE_STYLE then
          { h with history_buffer_front_index_style := parameter }
        else if metadata_type = HISTORY_METADATA_TYPE_COLOUR then
          { h with history_buffer_front_index_foreground := parameter }
        else h
      let cell2 := (parameter + HISTORY_METADATA_DATA_OFFSET) % 2 ^ 32
      if metadata_type = HISTORY_METADATA_TYPE_COLOUR ∨
          metadata_type = HISTORY_METADATA_TYPE_PARAGRAPHATTRIBUTE then do
        let parameter := p2
        if metadata_type = HISTORY_METADATA_TYPE_COLOUR ∧
            (parameter < -2 ∨ parameter > 15) then
          Except.error HErr.invalidParam
        else do
          let out := [HISTORY_METADATA_ESCAPE, metadata_type, cell2,
            (parameter + HISTORY_METADATA_DATA_OFFSET) % 2 ^ 32]
          let h ← store_data_raw h out 4
          Except.ok (h, 0)
      else do
        let out := [HISTORY_METADATA_ESCAPE, metadata_type, cell2]
        let h ← store_data_raw h out 3
        Except.ok (h, 0)

/-- The `write_metadata_state_block_if_necessary` policy: when the front
offset has crossed into a new state block, forcibly emits FONT, STYLE
and COLOUR records reflecting the current back-index state. -/
def write_metadata_state_block_if_necessary (h : OUTPUTHISTORY) :
    Except HErr OUTPUTHISTORY := do
  let buffer_index : Int := h.z_history_buffer_front_index
  let metadata_block_index :=
    buffer_index - buffer_index % Z_HISTORY_METADATA_STATE_BLOCK_SIZE
  let h ←
    if metadata_block_index ≠ h.last_metadata_block_index then do
      let (h, _) ← store_metadata_in_history h HISTORY_METADATA_TYPE_FONT
        h.history_buffer_back_index_font 0
      let (h, _) ← store_metadata_in_history h HISTORY_METADATA_TYPE_STYLE
        h.history_buffer_back_index_style 0
      let (h, _) ← store_metadata_in_history h HISTORY_METADATA_TYPE_COLOUR
        h.history_buffer_back_index_foreground
        h.history_buffer_back_index_background
      Except.ok h
    else Except.ok h
  Except.ok { h with last_metadata_block_index := metadata_block_index }

/-- The full `store_data_in_history`: the raw store followed by the
state-block evaluation when `evaluate_state_block` is set.  `data` and
`len` are passed exactly as in `store_data_raw`. -/
def store_data_in_history (h : OUTPUTHISTORY) (data : List Int)
    (len : Nat) (evaluate_state_block : Bool) :
    Except HErr OUTPUTHISTORY := do
  let h ← store_data_raw h data len
  if evaluate_state_block then write_metadata_state_block_if_necessary h
  else Except.ok h

/-- The `store_z_ucs_output_in_history` convenience wrapper: computes
the length and stores with the state-block tick enabled (no-op on empty
output).  The readable memory at the pointer includes the string's 0
terminator, which the store's wrap loop can copy into the buffer after
a partial first-phase write. -/
def store_z_ucs_output_in_history (h : OUTPUTHISTORY)
    (z_ucs_output : List Int) : Except HErr OUTPUTHISTORY :=
  if z_ucs_output.length = 0 then Except.ok h
  else store_data_in_history h (z_ucs_output ++ [0])
    z_ucs_output.length true

/-- The backward walk of `remove_chars_from_history`: `none` models the
NULL return of `decrement_buffer_pointer` (cannot rewind). -/
def remove_chars_go : Nat → OUTPUTHISTORY → Nat → Nat → Int → Int →
    Except HErr (Option (Nat × Nat))
  | fuel, h, ptr, lw, nof_chars, last_data =>
    if nof_chars > 0 then
      match fuel with
      | 0 => Except.error HErr.outOfFuel
      | fuel + 1 =>
        match decrement_buffer_pointer h ptr lw with
        | none => Except.ok none
        | some (ptr, lw) =>
          if readBuf h ptr = HISTORY_METADATA_ESCAPE ∧ last_data ≠ 0 then
            remove_chars_go fuel h ptr lw
              (nof_chars +
                (if last_data = HISTORY_METADATA_TYPE_COLOUR ∨
                    last_data = HISTORY_METADATA_TYPE_PARAGRAPHATTRIBUTE
                  then 4 else 3))
              last_data
          else
            remove_chars_go fuel h ptr lw (nof_chars - 1) (readBuf h ptr)
    else
      Except.ok (some (ptr, lw))

/-- The `remove_chars_from_history` function: walks backward from the
front by `nof_chars` logical characters; on success moves the front (and
the wrap counter) to the reached position and returns 0, otherwise
returns -1 and leaves the history unchanged. -/
def remove_chars_from_history (h : OUTPUTHISTORY) (nof_chars : Int)
    (fuel : Nat) : Except HErr (Int × OUTPUTHISTORY) := do
  match ← remove_chars_go fuel h h.z_history_buffer_front_index
      h.nof_wraparounds nof_chars 0 with
  | none => Except.ok (-1, h)
  | some (ptr, lw) =>
    Except.ok (0, { h with
      z_history_buffer_front_index := ptr
      nof_wraparounds := lw })

/-- The `get_allocated_text_history_size` accessor. -/
def get_allocated_text_history_size (h : OUTPUTHISTORY) : Nat :=
  h.z_history_buffer_size

/-- The `history_output` cursor structure of history.c.  The C code
leaves `metadata_at_index_evaluated` and all `saved_` fields
uninitialized in `init_history_output` (they come from `fizmo_malloc`);
the model fills them with fixed defaults, and no claim scenario reads
one of them before the program first assigns it. -/
structure history_output where
  validity_wraparounds : Nat
  validity_frontindex : Nat
  rewound_paragraph_was_newline_terminated : Bool
  validation_disabled : Bool
  last_rewinded_paragraphs_block_index : Int
  last_used_metadata_state_font : Int
  last_used_metadata_state_style : Int
  last_used_metadata_state_foreground : Int
  last_used_metadata_state_background : Int
  last_paragraph_attribute_index : Option Nat
  dont_skip_newline : Bool
  current_paragraph_index : Nat
  font_at_index : Int
  style_at_index : Int
  foreground_at_index : Int
  background_at_index : Int
  found_end_of_buffer : Bool
  nof_wraparounds : Nat
  first_iteration_done : Bool
  metadata_at_index_evaluated : Bool
  saved_current_paragraph_index : Nat
  saved_nof_wraparounds : Nat
  saved_found_end_of_buffer : Bool
  saved_first_iteration_done : Bool
  saved_rewound_paragraph_was_newline_terminated : Bool
  saved_metadata_at_index_evaluated : Bool
  saved_font_at_index : Int
  saved_style_at_index : Int
  saved_foreground_at_index : Int
  saved_background_at_index : Int
  saved_last_rewinded_paragraphs_block_index : Int
  saved_last_used_metadata_state_font : Int
  saved_last_used_metadata_state_style : Int
  saved_last_used_metadata_state_foreground : Int
  saved_last_used_metadata_state_background : Int
deriving DecidableEq, Repr

/-- The `init_history_output` constructor: captures the store's wrap
count and front index for later validation, seeds the cursor either from
the buffer front (stepping back one cell to the last stored unit) or
from the buffer back; `none` models the NULL returns. -/
def init_history_output (h : OUTPUTHISTORY)
    (from_bufferback without_validation : Bool) : Option history_output :=
  if h.z_history_buffer_size = 0 then none
  else
    let base : history_output := {
      validity_wraparounds := h.nof_wraparounds
      validity_frontindex := h.z_history_buffer_front_index
      rewound_paragraph_was_newline_terminated := false
      validation_disabled := without_validation
      last_rewinded_paragraphs_block_index := -1
      last_used_metadata_state_font := -1
      last_used_metadata_state_style := -1
      last_used_metadata_state_foreground := Z_COLOUR_UNDEFINED
      last_used_metadata_state_background := Z_COLOUR_UNDEFINED
      last_paragraph_attribute_index := none
      dont_skip_newline := false
      current_paragraph_index := 0
      font_at_index := 0
      style_at_index := 0
      foreground_at_index := 0
      background_at_index := 0
      found_end_of_buffer := false
      nof_wraparounds := 0
      first_iteration_done := false
      metadata_at_index_evaluated := false
      saved_current_paragraph_index := 0
      saved_nof_wraparounds := 0
      saved_found_end_of_buffer := false
      saved_first_iteration_done := false
      saved_rewound_paragraph_was_newline_terminated := false
      saved_metadata_at_index_evaluated := false
      saved_font_at_index := 0
      saved_style_at_index := 0
      saved_foreground_at_index := 0
      saved_background_at_index := 0
      saved_last_rewinded_paragraphs_block_index := 0
      saved_last_used_metadata_state_font := 0
      saved_last_used_metadata_state_style := 0
      saved_last_used_metadata_state_foreground := 0
      saved_last_used_metadata_state_background := 0 }
    if from_bufferback = false then
      let o := { base with
        current_paragraph_index := h.z_history_buffer_front_index
        font_at_index := h.history_buffer_front_index_font
        style_at_index := h.history_buffer_front_index_style
        foreground_at_index := h.history_buffer_front_index_foreground
        background_at_index := h.history_buffer_front_index_background
        found_end_of_buffer := false
        nof_wraparounds := 0
        first_iteration_done := false }
      match decrement_buffer_pointer h o.current_paragraph_index
          o.nof_wraparounds with
      | none => none
      | some (p, w) =>
        some { o with current_paragraph_index := p, nof_wraparounds := w }
    else
      some { base with
        current_paragraph_index := h.z_history_buffer_back_index
        font_at_index := h.history_buffer_back_index_font
        style_at_index := h.history_buffer_back_index_style
        foreground_at_index := h.history_buffer_back_index_foreground
        background_at_index := h.history_buffer_back_index_background
        found_end_of_buffer := true
        nof_wraparounds :=
          if h.nof_wraparounds > 0 then h.nof_wraparounds - 1 else 0
        first_iteration_done := true }

/-- The condition checked by `validate_outputhistory`: the store's
current wrap count and front index still match the values captured when
the cursor was created. -/
def validityOk (h : OUTPUTHISTORY) (o : history_output) : Bool :=
  o.validity_wraparounds = h.nof_wraparounds ∧
    o.validity_frontindex = h.z_history_buffer_front_index

/-- The `validate_outputhistory` check: fatal
(`i18n_libfizmo_HISTORYOUTPUT_NO_LONGER_VALID`) unless the captured
wrap count and front index match the store's current values. -/
def validate_outputhistory (h : OUTPUTHISTORY) (o : history_output) :
    Except HErr Unit :=
  if validityOk h o then Except.ok () else Except.error HErr.noLongerValid

/-- The fill-in block of `evaluate_metadata_for_paragraph` that runs
when the backward walk hits the end of the live region: an unresolved
font or style is taken from the back-index state, while an unresolved
foreground or background is taken from the front-index state (the C
source reads `history_buffer_front_index_foreground` and
`history_buffer_front_index_background` there). -/
def fill_unresolved_from_back (h : OUTPUTHISTORY)
    (font style fg bg : Int) : Int × Int × Int × Int :=
  (if font = -1 then h.history_buffer_back_index_font else font,
   if style = -1 then h.history_buffer_back_index_style else style,
   if fg = Z_COLOUR_UNDEFINED then
     h.history_buffer_front_index_foreground else fg,
   if bg = Z_COLOUR_UNDEFINED then
     h.history_buffer_front_index_background else bg)

/-- The backward search loop of `evaluate_metadata_for_paragraph`:
walks toward the live-region end, resolving attributes from the records
it crosses; `i2`, `i3`, `i4` are the last three visited offsets. -/
def emp_go : Nat → OUTPUTHISTORY → Nat → Nat → Option Nat → Option Nat →
    Option Nat → Int → Int → Int → Int →
    Except HErr (Int × Int × Int × Int)
  | 0, _, _, _, _, _, _, _, _, _, _ => Except.error HErr.outOfFuel
  | fuel + 1, h, index, lw, i2, i3, i4, font, style, fg, bg =>
    if font = -1 ∨ style = -1 ∨ fg = Z_COLOUR_UNDEFINED ∨
        bg = Z_COLOUR_UNDEFINED then
      let i4 := i3
      let i3 := i2
      let i2 := some index
      match decrement_buffer_pointer h index lw with
      | none => Except.ok (fill_unresolved_from_back h font style fg bg)
      | some (index, lw) =>
        if readBuf h index = HISTORY_METADATA_ESCAPE then
          let metadata_type := readBufOpt h i2
          let parameter := readBufOpt h i3 - HISTORY_METADATA_DATA_OFFSET
          if metadata_type = HISTORY_METADATA_TYPE_FONT ∧ font = -1 then
            emp_go fuel h index lw i2 i3 i4 parameter style fg bg
          else if metadata_type = HISTORY_METADATA_TYPE_STYLE ∧
              style = -1 then
            emp_go fuel h index lw i2 i3 i4 font parameter fg bg
          else if metadata_type = HISTORY_METADATA_TYPE_COLOUR ∧
              (fg = Z_COLOUR_UNDEFINED ∨ bg = Z_COLOUR_UNDEFINED) then
            emp_go fuel h index lw i2 i3 i4 font style parameter
              (readBufOpt h i4 - HISTORY_METADATA_DATA_OFFSET)
          else
            emp_go fuel h index lw i2 i3 i4 font style fg bg
        else
          emp_go fuel h index lw i2 i3 i4 font style fg bg
    else
      Except.ok (font, style, fg, bg)

/-- The `evaluate_metadata_for_paragraph` routine: validates (unless
disabled), returns immediately when already evaluated, re-uses the
single-slot state cache when its block index matches (note the C code
compares the cached background against `-Z_COLOUR_UNDEFINED`), and
otherwise reconstructs the state by walking backward. -/
def evaluate_metadata_for_paragraph (h : OUTPUTHISTORY)
    (o : history_output) (fuel : Nat) : Except HErr history_output := do
  if o.validation_disabled = false then validate_outputhistory h o
  if o.metadata_at_index_evaluated = true then
    Except.ok o
  else
    let buffer_index : Int := o.current_paragraph_index
    let metadata_block_index :=
      buffer_index - buffer_index % Z_HISTORY_METADATA_STATE_BLOCK_SIZE
    if o.last_rewinded_paragraphs_block_index = metadata_block_index ∧
        o.last_used_metadata_state_font ≠ -1 ∧
        o.last_used_metadata_state_style ≠ -1 ∧
        o.last_used_metadata_state_foreground ≠ Z_COLOUR_UNDEFINED ∧
        o.last_used_metadata_state_background ≠ -Z_COLOUR_UNDEFINED then
      Except.ok { o with
        font_at_index := o.last_used_metadata_state_font
        style_at_index := o.last_used_metadata_state_style
        foreground_at_index := o.last_used_metadata_state_foreground
        background_at_index := o.last_used_metadata_state_background
        metadata_at_index_evaluated := true }
    else do
      let (f, s, fg, bg) ← emp_go fuel h o.current_paragraph_index
        o.nof_wraparounds none none none (-1) (-1) Z_COLOUR_UNDEFINED
        Z_COLOUR_UNDEFINED
      Except.ok { o with
        font_at_index := f
        style_at_index := s
        foreground_at_index := fg
        background_at_index := bg
        metadata_at_index_evaluated := true }

/-- Result of the main backward walk of `output_rewind_paragraph`:
`hitEnd` models the NULL return of `decrement_buffer_pointer` (buffer
back reached), `found` carries the offset and local wrap counter of the
paragraph's first character together with the character count. -/
inductive RewindWalk where
  | hitEnd : Option Int → Option Int → RewindWalk
  | found : Nat → Nat → Int → Option Int → Option Int → RewindWalk
deriving DecidableEq, Repr

/-- The `do ... while (*index != '\n')` walk of
`output_rewind_paragraph`: counts non-metadata units (subtracting the
width of each record crossed), reporting paragraph-attribute parameters
through the out-parameters. -/
def orp_go : Nat → OUTPUTHISTORY → Nat → Nat → Option Nat → Option Nat →
    Option Nat → Int → Option Int → Option Int → Except HErr RewindWalk
  | 0, _, _, _, _, _, _, _, _, _ => Except.error HErr.outOfFuel
  | fuel + 1, h, index, lw, li, li2, li3, nof_chars, pa1, pa2 =>
    let li3 := li2
    let li2 := li
    let li := some index
    let last_index := index
    let last_lw := lw
    match decrement_buffer_pointer h index lw with
    | none => Except.ok (RewindWalk.hitEnd pa1 pa2)
    | some (index, lw) =>
      let nof_chars := nof_chars + 1
      let step :=
        if readBuf h index = HISTORY_METADATA_ESCAPE then
          if readBufOpt h li = HISTORY_METADATA_TYPE_COLOUR then
            (nof_chars - 4, pa1, pa2)
          else if readBufOpt h li =
              HISTORY_METADATA_TYPE_PARAGRAPHATTRIBUTE then
            (nof_chars - 4,
              some (readBufOpt h li2 - HISTORY_METADATA_DATA_OFFSET),
              some (readBufOpt h li3 - HISTORY_METADATA_DATA_OFFSET))
          else
            (nof_chars - 3, pa1, pa2)
        else
          (nof_chars, pa1, pa2)
      if readBuf h index = Z_UCS_NEWLINE then
        Except.ok (RewindWalk.found last_index last_lw step.1 step.2.1
          step.2.2)
      else
        orp_go fuel h index lw li li2 li3 step.1 step.2.1 step.2.2

/-- The part of `output_rewind_paragraph` from
`output->first_iteration_done = true;` on: runs the backward walk, and
on success repositions the cursor and evaluates the paragraph state. -/
def orp_main (h : OUTPUTHISTORY) (o : history_output) (index lw : Nat)
    (fuel : Nat) :
    Except HErr (Int × history_output × Option Int × Option Int × Option Int)
    := do
  let o := { o with first_iteration_done := true }
  match ← orp_go fuel h index lw none none none 0 none none with
  | RewindWalk.hitEnd pa1 pa2 =>
    Except.ok (1, { o with found_end_of_buffer := true }, none, pa1, pa2)
  | RewindWalk.found last_index last_lw nof_chars pa1 pa2 => do
    let o := { o with
      current_paragraph_index := last_index
      nof_wraparounds := last_lw
      metadata_at_index_evaluated := false }
    let o ← evaluate_metadata_for_paragraph h o fuel
    Except.ok (0, o, some nof_chars, pa1, pa2)

/-- The continuation of `output_rewind_paragraph` inside the
`first_iteration_done` branch, after the newline-skip decision: checks
that the cursor sits on a newline, steps to the previous paragraph's
last character, and handles the empty-paragraph and buffer-start
cases. -/
def orp_after_skip (h : OUTPUTHISTORY) (o : history_output)
    (index lw : Nat) (fuel : Nat) :
    Except HErr (Int × history_output × Option Int × Option Int × Option Int)
    := do
  if readBuf h index ≠ Z_UCS_NEWLINE then
    Except.ok (-4, o, none, none, none)
  else
    let last_index := index
    let last_lw := lw
    match decrement_buffer_pointer h index lw with
    | none =>
      Except.ok (0, { o with
        found_end_of_buffer := true
        current_paragraph_index := last_index
        nof_wraparounds := last_lw }, none, none, none)
    | some (index, lw) =>
      if readBuf h index = Z_UCS_NEWLINE then
        Except.ok (0, { o with
          current_paragraph_index := last_index
          nof_wraparounds := last_lw }, none, none, none)
      else
        orp_main h o index lw fuel

/-- The `output_rewind_paragraph` function of history.c.  The result is
`(return value, cursor, char_count, paragraph_attr1, paragraph_attr2)`;
an out-parameter the C code does not assign on the taken path is
returned as `none`. -/
def output_rewind_paragraph (h : OUTPUTHISTORY) (o : history_output)
    (fuel : Nat) :
    Except HErr (Int × history_output × Option Int × Option Int × Option Int)
    := do
  if o.validation_disabled = false then validate_outputhistory h o
  if h.z_history_buffer_size = 0 then
    Except.ok (-1, o, none, none, none)
  else if o.found_end_of_buffer = true then
    Except.ok (1, o, none, none, none)
  else
    let index := o.current_paragraph_index
    let lw := o.nof_wraparounds
    if o.first_iteration_done = true then
      let o := { o with rewound_paragraph_was_newline_terminated := true }
      if o.dont_skip_newline = false then
        match decrement_buffer_pointer h index lw with
        | none => Except.ok (-3, o, none, none, none)
        | some (index, lw) => orp_after_skip h o index lw fuel
      else
        orp_after_skip h { o with dont_skip_newline := false } index lw fuel
    else
      if readBuf h index = Z_UCS_NEWLINE then
        Except.ok (0, { o with
          dont_skip_newline := true
          first_iteration_done := true
          metadata_at_index_evaluated := false
          rewound_paragraph_was_newline_terminated := true },
          some 0, none, none)
      else
        orp_main h
          { o with
            dont_skip_newline := false
            rewound_paragraph_was_newline_terminated := false }
          index lw fuel

/-- The `alter_last_paragraph_attributes` function: validates the cursor
unconditionally (no `validation_disabled` check in the source), then
overwrites the two parameter cells of the last seen paragraph-attribute
record in place. -/
def alter_last_paragraph_attributes (h : OUTPUTHISTORY)
    (o : history_output) (paragraph_attr1 paragraph_attr2 : Int) :
    Except HErr (Int × OUTPUTHISTORY) := do
  validate_outputhistory h o
  match o.last_paragraph_attribute_index with
  | none => Except.ok (-1, h)
  | some index =>
    let b := h.buf.setD index
      ((paragraph_attr1 + HISTORY_METADATA_DATA_OFFSET) % 2 ^ 32)
    let index := wrapInc h index
    let b := b.setD index
      ((paragraph_attr2 + HISTORY_METADATA_DATA_OFFSET) % 2 ^ 32)
    Except.ok (0, { h with buf := b })

/-- The `is_output_at_frontindex` predicate. -/
def is_output_at_frontindex (h : OUTPUTHISTORY) (o : history_output) :
    Except HErr Bool := do
  if o.validation_disabled = false then validate_outputhistory h o
  Except.ok (o.current_paragraph_index = h.z_history_buffer_front_index)

/-- One metadata record decoded inside the repeat loop (the
`*output_ptr == HISTORY_METADATA_ESCAPE` case of
`output_repeat_paragraphs`): updates the cursor's running state,
translates the record to target calls when `include_metadata` is set,
records the paragraph-attribute position for later alteration, and
returns the offset of the record's last cell advanced by one.  An
unknown record type is fatal. -/
def orep_metadata (h : OUTPUTHISTORY) (o : history_output)
    (include_metadata : Bool) (ptr : Nat) (events : List TargetEvent) :
    Except HErr (history_output × Nat × List TargetEvent) :=
  let ptr := wrapInc h ptr
  let metadata_type := readBuf h ptr
  let ptr := wrapInc h ptr
  let parameter := readBuf h ptr - HISTORY_METADATA_DATA_OFFSET
  if metadata_type = HISTORY_METADATA_TYPE_FONT then
    Except.ok ({ o with font_at_index := parameter }, wrapInc h ptr,
      if include_metadata then events ++ [TargetEvent.setFont parameter]
      else events)
  else if metadata_type = HISTORY_METADATA_TYPE_STYLE then
    Except.ok ({ o with style_at_index := parameter }, wrapInc h ptr,
      if include_metadata then
        events ++ [TargetEvent.setTextStyle parameter]
      else events)
  else if metadata_type = HISTORY_METADATA_TYPE_COLOUR then
    let ptr := wrapInc h ptr
    let parameter2 := readBuf h ptr - HISTORY_METADATA_DATA_OFFSET
    Except.ok ({ o with
        foreground_at_index := parameter
        background_at_index := parameter2 }, wrapInc h ptr,
      if include_metadata then
        events ++ [TargetEvent.setColour parameter parameter2 (-1)]
      else events)
  else if metadata_type = HISTORY_METADATA_TYPE_PARAGRAPHATTRIBUTE then
    Except.ok ({ o with last_paragraph_attribute_index := some ptr },
      wrapInc h (wrapInc h ptr), events)
  else
    Except.error HErr.invalidParam

/-- The `while (n > 0)` loop of `output_repeat_paragraphs`: reads
forward, staging text into a bounded buffer that is flushed to the
target at newlines, metadata records, a full buffer, or the front;
metadata records are decoded by `orep_metadata` above. -/
def orep_go : Nat → OUTPUTHISTORY → history_output → Int → Bool → Nat →
    List Int → List TargetEvent →
    Except HErr (Int × history_output × Nat × List TargetEvent)
  | fuel, h, o, n, include_metadata, ptr, bufAcc, events =>
    if n > 0 then
      match fuel with
      | 0 => Except.error HErr.outOfFuel
      | fuel + 1 =>
        let c := readBuf h ptr
        let n := if c = Z_UCS_NEWLINE then n - 1 else n
        if bufAcc.length = REPEAT_PARAGRAPH_BUF_SIZE - 1 ∨ n < 1 ∨
            c = HISTORY_METADATA_ESCAPE ∨
            ptr = h.z_history_buffer_front_index then
          let events := events ++ [TargetEvent.text bufAcc]
          if ptr = h.z_history_buffer_front_index then
            Except.ok (n, o, ptr, events)
          else if n < 1 then
            Except.ok (n, o, ptr, events)
          else
            if c = HISTORY_METADATA_ESCAPE then
              match orep_metadata h o include_metadata ptr events with
              | Except.error e => Except.error e
              | Except.ok (o, ptr, events) =>
                orep_go fuel h o n include_metadata ptr [] events
            else
              orep_go fuel h o n include_metadata (wrapInc h ptr)
                [c] events
        else
          orep_go fuel h o n include_metadata (wrapInc h ptr)
            (bufAcc ++ [c]) events
    else
      Except.ok (n, o, ptr, events)

/-- The `output_repeat_paragraphs` function of history.c: validates
(unless disabled), synchronises the target with the cursor's current
state, emits up to `n` paragraphs, and optionally advances the cursor.
The result is `(return value, cursor, events sent to the target)`. -/
def output_repeat_paragraphs (h : OUTPUTHISTORY) (o : history_output)
    (n : Int) (include_metadata advance_history_pointer : Bool)
    (fuel : Nat) :
    Except HErr (Int × history_output × List TargetEvent) := do
  if o.validation_disabled = false then validate_outputhistory h o
  let o ← if include_metadata = true then
      evaluate_metadata_for_paragraph h o fuel
    else Except.ok o
  let events := [TargetEvent.setFont o.font_at_index,
    TargetEvent.setTextStyle o.style_at_index,
    TargetEvent.setColour o.foreground_at_index o.background_at_index (-1)]
  let o := if advance_history_pointer = true then
      { o with found_end_of_buffer := false }
    else o
  let start_ptr := o.current_paragraph_index
  let (n, o, ptr, events) ←
    if start_ptr = h.z_history_buffer_front_index then
      Except.ok ((-1 : Int), o, start_ptr, events)
    else
      orep_go fuel h o n include_metadata start_ptr [] events
  let o :=
    if advance_history_pointer = true then
      let o := { o with current_paragraph_index := ptr }
      if o.current_paragraph_index ≠ h.z_history_buffer_front_index then
        { o with current_paragraph_index := o.current_paragraph_index + 1 }
      else
        let o := { o with first_iteration_done := false }
        if readBuf h o.current_paragraph_index = Z_UCS_NEWLINE then
          { o with rewound_paragraph_was_newline_terminated := true }
        else
          { o with rewound_paragraph_was_newline_terminated := false }
    else o
  Except.ok (n, o, events)

/-- The `remember_history_output_position` function: copies the mutable
cursor state into the single saved slot (after validation, unless
disabled). -/
def remember_history_output_position (h : OUTPUTHISTORY)
    (o : history_output) : Except HErr history_output := do
  if o.validation_disabled = false then validate_outputhistory h o
  Except.ok { o with
    saved_current_paragraph_index := o.current_paragraph_index
    saved_nof_wraparounds := o.nof_wraparounds
    saved_found_end_of_buffer := o.found_end_of_buffer
    saved_first_iteration_done := o.first_iteration_done
    saved_rewound_paragraph_was_newline_terminated :=
      o.rewound_paragraph_was_newline_terminated
    saved_metadata_at_index_evaluated := o.metadata_at_index_evaluated
    saved_font_at_index := o.font_at_index
    saved_style_at_index := o.style_at_index
    saved_foreground_at_index := o.foreground_at_index
    saved_background_at_index := o.background_at_index
    saved_last_rewinded_paragraphs_block_index :=
      o.last_rewinded_paragraphs_block_index
    saved_last_used_metadata_state_font := o.last_used_metadata_state_font
    saved_last_used_metadata_state_style := o.last_used_metadata_state_style
    saved_last_used_metadata_state_foreground :=
      o.last_used_metadata_state_foreground
    saved_last_used_metadata_state_background :=
      o.last_used_metadata_state_background }

/-- The `restore_history_output_position` function: copies the saved
slot back into the cursor (after validation, unless disabled).  The C
source restores every saved field except the wrap counter, whose
assignment reads `output->nof_wraparounds = output->nof_wraparounds;`
so the live value is kept. -/
def restore_history_output_position (h : OUTPUTHISTORY)
    (o : history_output) : Except HErr history_output := do
  if o.validation_disabled = false then validate_outputhistory h o
  Except.ok { o with
    current_paragraph_index := o.saved_current_paragraph_index
    nof_wraparounds := o.nof_wraparounds
    found_end_of_buffer := o.saved_found_end_of_buffer
    rewound_paragraph_was_newline_terminated :=
      o.saved_rewound_paragraph_was_newline_terminated
    first_iteration_done := o.saved_first_iteration_done
    metadata_at_index_evaluated := o.saved_metadata_at_index_evaluated
    font_at_index := o.saved_font_at_index
    style_at_index := o.saved_style_at_index
    foreground_at_index := o.saved_foreground_at_index
    background_at_index := o.saved_background_at_index
    last_rewinded_paragraphs_block_index :=
      o.saved_last_rewinded_paragraphs_block_index
    last_used_metadata_state_font := o.saved_last_used_metadata_state_font
    last_used_metadata_state_style := o.saved_last_used_metadata_state_style
    last_used_metadata_state_foreground :=
      o.saved_last_used_metadata_state_foreground
    last_used_metadata_state_background :=
      o.saved_last_used_metadata_state_background }

/-- Empty history used as the default when extracting from `Except`. -/
def emptyHistory : OUTPUTHISTORY := create_outputhistory 0 0 0 0 0 0 0

/-- Extract a history from an `Except` result (all scenario runs below
succeed, so the default is never used). -/
def exget (x : Except HErr OUTPUTHISTORY) : OUTPUTHISTORY :=
  x.toOption.getD emptyHistory

/-- All-zero cursor used as the default when extracting from `Option`
(never used: the scenario inits succeed). -/
def dummy_cursor : history_output := {
  validity_wraparounds := 0
  validity_frontindex := 0
  rewound_paragraph_was_newline_terminated := false
  validation_disabled := false
  last_rewinded_paragraphs_block_index := 0
  last_used_metadata_state_font := 0
  last_used_metadata_state_style := 0
  last_used_metadata_state_foreground := 0
  last_used_metadata_state_background := 0
  last_paragraph_attribute_index := none
  dont_skip_newline := false
  current_paragraph_index := 0
  font_at_index := 0
  style_at_index := 0
  foreground_at_index := 0
  background_at_index := 0
  found_end_of_buffer := false
  nof_wraparounds := 0
  first_iteration_done := false
  metadata_at_index_evaluated := false
  saved_current_paragraph_index := 0
  saved_nof_wraparounds := 0
  saved_found_end_of_buffer := false
  saved_first_iteration_done := false
  saved_rewound_paragraph_was_newline_terminated := false
  saved_metadata_at_index_evaluated := false
  saved_font_at_index := 0
  saved_style_at_index := 0
  saved_foreground_at_index := 0
  saved_background_at_index := 0
  saved_last_rewinded_paragraphs_block_index := 0
  saved_last_used_metadata_state_font := 0
  saved_last_used_metadata_state_style := 0
  saved_last_used_metadata_state_foreground := 0
  saved_last_used_metadata_state_background := 0 }

/-- Scenario 1 of the spec: `create(64, 16, white, black)` followed by
`store_text("Hello\n")`. -/
def hello_history : OUTPUTHISTORY :=
  exget (store_z_ucs_output_in_history
    (create_outputhistory 0 64 16 Z_COLOUR_WHITE Z_COLOUR_BLACK 1 0)
    [72, 101, 108, 108, 111, 10])

/-- Cursor from the buffer front on the `hello_history` store, with
validation enabled. -/
def hello_cursor : history_output :=
  (init_history_output hello_history false false).getD dummy_cursor

/-- NO_VALIDATION cursor from the buffer front on `hello_history`. -/
def hello_cursor_nv : history_output :=
  (init_history_output hello_history false true).getD dummy_cursor

/-- The `hello_history` store after one further `store_text("x")`,
which moves the front index (invalidating earlier cursors). -/
def hello_x_history : OUTPUTHISTORY :=
  exget (store_z_ucs_output_in_history hello_history [120])

/-- Small store driven into wrap-around: `Nmax = Ninc = 4`, then the
texts "AB", "CD", "EF"; the resulting buffer is `[E,F,C,D]` with
`front = back = 2` and one wrap-around. -/
def c1_pre_history : OUTPUTHISTORY :=
  exget (do
    let h := create_outputhistory 0 4 4 Z_COLOUR_WHITE Z_COLOUR_BLACK 1 0
    let h ← store_z_ucs_output_in_history h [65, 66]
    let h ← store_z_ucs_output_in_history h [67, 68]
    store_z_ucs_output_in_history h [69, 70])

/-- Wrapped 8-cell store: `Nmax = Ninc = 8`, texts "AB\nCD\nE" and
"FG".  The second store writes `F` in the one cell left before the
buffer end, then enters the wrap loop with its length undecremented, so
the loop copies two cells from the advanced pointer — `G` and the
string's 0 terminator; buffer `[G,0,\n,C,D,\n,E,F]`, `front = back =
2`, one wrap. -/
def c3_history : OUTPUTHISTORY :=
  exget (do
    let h := create_outputhistory 0 8 8 Z_COLOUR_WHITE Z_COLOUR_BLACK 1 0
    let h ← store_z_ucs_output_in_history h [65, 66, 10, 67, 68, 10, 69]
    store_z_ucs_output_in_history h [70, 71])

/-- Cursor from front on `c3_history`, validation enabled. -/
def c3_cursor : history_output :=
  (init_history_output c3_history false false).getD dummy_cursor

/-- The remember / rewind / restore run on `c3_history`: the cursor's
local wrap counter is changed by the rewind (it walks through the wrap
boundary) and `restore` is then called. -/
def c3_restored : Except HErr history_output := do
  let o ← remember_history_output_position c3_history c3_cursor
  let (_, o, _, _, _) ← output_rewind_paragraph c3_history o 200
  restore_history_output_position c3_history o

/-- Store with a colour record between two one-character paragraphs:
`create(16,16,white,black)`, "A\n", `store_metadata(COLOUR, 6, 7)`,
"B\n".  After the metadata call the front-index foreground is 6 while
the back-index foreground is still 9 (white). -/
def c5_history : OUTPUTHISTORY :=
  exget (do
    let h := create_outputhistory 0 16 16 Z_COLOUR_WHITE Z_COLOUR_BLACK 1 0
    let h ← store_z_ucs_output_in_history h [65, 10]
    let (h, _) ← store_metadata_in_history h HISTORY_METADATA_TYPE_COLOUR 6 7
    store_z_ucs_output_in_history h [66, 10])

/-- Cursor from front on `c5_history`. -/
def c5_cursor : history_output :=
  (init_history_output c5_history false false).getD dummy_cursor

/-- Two rewinds on `c5_history`: the second lands on the paragraph that
starts at the colour record and evaluates its state; the backward walk
from there finds no colour record and falls off the live-region end. -/
def c5_evaluated : Except HErr history_output := do
  let (_, o, _, _, _) ← output_rewind_paragraph c5_history c5_cursor 100
  let (_, o, _, _, _) ← output_rewind_paragraph c5_history o 100
  Except.ok o

/-- Store for the remove-chars counterexample: six letters, a FONT
metadata record, then one more letter; buffer
`[a,b,c,d,e,f,ESC,FONT,4+13,w]`, `front = 10`. -/
def c6_history : OUTPUTHISTORY :=
  exget (do
    let h := create_outputhistory 0 16 16 Z_COLOUR_WHITE Z_COLOUR_BLACK 1 0
    let h ← store_z_ucs_output_in_history h [97, 98, 99, 100, 101, 102]
    let (h, _) ← store_metadata_in_history h HISTORY_METADATA_TYPE_FONT 4 0
    store_z_ucs_output_in_history h [119])

/-- Store satisfying the hypotheses of the amended remove-chars theorem:
three letters, no metadata anywhere before the front. -/
def c6_witness_history : OUTPUTHISTORY :=
  exget (store_z_ucs_output_in_history
    (create_outputhistory 0 16 16 Z_COLOUR_WHITE Z_COLOUR_BLACK 1 0)
    [97, 98, 99])

/-- Store "A\n" on a 16-cell buffer (repeat-paragraphs scenario). -/
def c7_history : OUTPUTHISTORY :=
  exget (store_z_ucs_output_in_history
    (create_outputhistory 0 16 16 Z_COLOUR_WHITE Z_COLOUR_BLACK 1 0)
    [65, 10])

/-- Cursor from front on `c7_history`. -/
def c7_cursor : history_output :=
  (init_history_output c7_history false false).getD dummy_cursor

/-- The cursor of `c7_history` after one advancing repeat, which leaves
`current_paragraph_index` exactly at the store's front index. -/
def c7_cursor_at_front : history_output :=
  ((output_repeat_paragraphs c7_history c7_cursor 1 false true 100).map
    (fun r => r.2.1)).toOption.getD dummy_cursor

/-- The full result of the first advancing repeat on `c7_history`. -/
def c7_repeat_result : Except HErr (Int × history_output × List TargetEvent) :=
  output_repeat_paragraphs c7_history c7_cursor 1 false true 100

/-- Return value of the first advancing repeat on `c7_history`. -/
def c7_repeat_r : Int :=
  (c7_repeat_result.map (fun x => x.1)).toOption.getD 0

/-- Cursor produced by the first advancing repeat on `c7_history`. -/
def c7_repeat_cursor : history_output :=
  (c7_repeat_result.map (fun x => x.2.1)).toOption.getD dummy_cursor

/-- Target events of the first advancing repeat on `c7_history`. -/
def c7_repeat_events : List TargetEvent :=
  (c7_repeat_result.map (fun x => x.2.2)).toOption.getD []

/-- One write sequence as the spec's P2 describes it: the presentation
state as a `(font, style, foreground, background)` quadruple. -/
def spec_apply_metadata (st : Int × Int × Int × Int)
    (rec : Int × Int × Int) : Int × Int × Int × Int :=
  match st, rec with
  | (f, s, fg, bg), (t, p1, p2) =>
    if t = HISTORY_METADATA_TYPE_FONT then (p1, s, fg, bg)
    else if t = HISTORY_METADATA_TYPE_STYLE then (f, p1, fg, bg)
    else if t = HISTORY_METADATA_TYPE_COLOUR then (f, s, p1, p2)
    else (f, s, fg, bg)

/-- Front-index state quadruple of a store. -/
def front_state (h : OUTPUTHISTORY) : Int × Int × Int × Int :=
  (h.history_buffer_front_index_font, h.history_buffer_front_index_style,
   h.history_buffer_front_index_foreground,
   h.history_buffer_front_index_background)

/-- Whether an `Except` result is a success. -/
def exceptIsOk {A : Type} : Except HErr A → Bool
  | Except.ok _ => true
  | Except.error _ => false

/-- Decidable equality for `Except` results, so that concrete runs can
be checked by `decide`. -/
instance {e a : Type} [DecidableEq e] [DecidableEq a] :
    DecidableEq (Except e a) := fun x y =>
  match x, y with
  | .ok v, .ok w =>
    if h : v = w then isTrue (by rw [h])
    else isFalse (fun hx => h (by cases hx; rfl))
  | .ok _, .error _ => isFalse (fun hx => Except.noConfusion hx)
  | .error _, .ok _ => isFalse (fun hx => Except.noConfusion hx)
  | .error v, .error w =>
    if h : v = w then isTrue (by rw [h])
    else isFalse (fun hx => h (by cases hx; rfl))

/-- C1: evaluating `store_data_in_history` on a wrapped 4-cell store
with a 5-unit input (`len >= Nmax`): the code copies the first
`len - Nmax` units of `data` (here the single unit 71) to the buffer
start, sets `front = start` and `back = end`, and leaves the wrap
counter unchanged — not the tail copy of `Nmax` units with
`back = start`, `front = end` and an incremented wrap counter that the
specification describes. -/
theorem store_chars_overlong_input_behaviour :
    (store_data_in_history c1_pre_history [71, 72, 73, 74, 75] 5 true).map
      (fun h => (h.z_history_buffer_front_index,
        h.z_history_buffer_back_index, h.nof_wraparounds,
        h.buf.toList.take 4))
      = .ok (0, 3, 1, [71, 70, 67, 68]) ∧
    c1_pre_history.nof_wraparounds = 1 := by decide

/-- C2: a `store_metadata(COLOUR, 4, 5)` call with both parameters in
range leaves the front-index background at its initial value 2 (the C
assignment sits after `i18n_translate_and_exit` and is unreachable),
while applying the record per the spec's P2 would make it 5. -/
theorem store_metadata_colour_front_background :
    (store_metadata_in_history
        (create_outputhistory 0 64 16 Z_COLOUR_WHITE Z_COLOUR_BLACK 1 0)
        HISTORY_METADATA_TYPE_COLOUR 4 5).map (fun p => front_state p.1)
      = .ok (1, 0, 4, 2) ∧
    spec_apply_metadata (1, 0, 9, 2) (HISTORY_METADATA_TYPE_COLOUR, 4, 5)
      = (1, 0, 4, 5) ∧
    ((1, 0, 4, 2) : Int × Int × Int × Int) ≠ (1, 0, 4, 5) := by decide

/-- C3: after `remember` (the cursor sits at offset 1, one cell below
the front), a `rewind_paragraph` that walks through the wrap boundary
(changing the cursor's local wrap counter from 0 to 2^32 - 1 via the
unsigned decrement), and `restore`, the wrap counter keeps the value
4294967295 instead of returning to the remembered 0: the C source
restores it with the self-assignment
`output->nof_wraparounds = output->nof_wraparounds`.  Every other
remembered field (here the paragraph index, restored to 1, and the
end-of-buffer flag) is restored. -/
theorem restore_does_not_restore_wrap_counter :
    c3_restored.map (fun o => (o.nof_wraparounds, o.saved_nof_wraparounds,
        o.current_paragraph_index, o.found_end_of_buffer))
      = .ok (4294967295, 0, 1, false) ∧
    c3_cursor.nof_wraparounds = 0 ∧
    c3_cursor.current_paragraph_index = 1 := by decide

/-- C4 counterexample: on the spec's own scenario
(`create(64,16,white,black)` then `store_text("Hello\n")`) the code's
`get_buffer_space_used` returns 7, not the 6 the claim states (the
non-wrapped branch computes `front - back + 1`). -/
theorem space_used_hello_not_six :
    get_buffer_space_used hello_history = 7 ∧ (7 : Int) ≠ 6 ∧
    hello_history.nof_wraparounds = 0 := by decide

/-- C4 (amended): for a store with a non-empty buffer the occupancy
reported by `get_buffer_space_used` is `front - back + 1` when
`wraps = 0` and `N - (back - front)` when `wraps > 0`; on the concrete
scenario it returns 7 with `wraps = 0`. -/
theorem space_used_formula :
    (∀ h : OUTPUTHISTORY, h.z_history_buffer_size ≠ 0 →
      get_buffer_space_used h =
        if h.nof_wraparounds = 0 then
          (h.z_history_buffer_front_index : Int)
            - h.z_history_buffer_back_index + 1
        else
          (h.z_history_buffer_size : Int)
            - ((h.z_history_buffer_back_index : Int)
              - h.z_history_buffer_front_index)) ∧
    get_buffer_space_used hello_history = 7 ∧
    hello_history.nof_wraparounds = 0 := by
  refine ⟨?_, by decide, by decide⟩
  intro h hs
  unfold get_buffer_space_used
  simp [hs]

/-- Witness for the amended C4 theorem at the concrete scenario store. -/
theorem space_used_formula_witness :
    get_buffer_space_used hello_history =
      if hello_history.nof_wraparounds = 0 then
        (hello_history.z_history_buffer_front_index : Int)
          - hello_history.z_history_buffer_back_index + 1
      else
        (hello_history.z_history_buffer_size : Int)
          - ((hello_history.z_history_buffer_back_index : Int)
            - hello_history.z_history_buffer_front_index) :=
  space_used_formula.1 hello_history (by decide)

/-- C8 counterexample: on the spec's scenario 1 the first
`rewind_paragraph` stores 0 in `char_count`, not 5 (the cursor starts
on the trailing newline, so the first call takes the early
newline-terminated return). -/
theorem first_rewind_hello_char_count_not_five :
    (output_rewind_paragraph hello_history hello_cursor 100).map
      (fun r => r.2.2.1) = .ok (some 0) ∧
    (Except.ok (some 0) : Except HErr (Option Int)) ≠ .ok (some 5) := by
  decide

/-- C8 (amended): on `create(64,16,white,black)` + `store_text
("Hello\n")`, the first `rewind_paragraph` on a cursor from the front
returns 0 with `char_count = 0`,
`rewound_paragraph_was_newline_terminated = true` and state
`(white, black, default font, default style)`; a second call returns 1
(end of live region: the walk hits the buffer start before finding a
preceding newline) and leaves `char_count` unassigned. -/
theorem first_rewind_hello_behaviour :
    (output_rewind_paragraph hello_history hello_cursor 100).map
      (fun r => (r.1, r.2.2.1,
        r.2.1.rewound_paragraph_was_newline_terminated))
      = .ok (0, some 0, true) ∧
    (output_rewind_paragraph hello_history hello_cursor 100).map
      (fun r => (r.2.1.font_at_index, r.2.1.style_at_index,
        r.2.1.foreground_at_index, r.2.1.background_at_index))
      = .ok (1, 0, Z_COLOUR_WHITE, Z_COLOUR_BLACK) ∧
    ((output_rewind_paragraph hello_history hello_cursor 100).bind
      (fun r => (output_rewind_paragraph hello_history r.2.1 100).map
        (fun r2 => (r2.1, r2.2.2.1)))) = .ok (1, none) := by decide

/-- C5 counterexample: in `c5_history` the back-index foreground is 9
and the front-index foreground is 6; the state evaluated for the
paragraph that begins at the colour record (whose backward walk reaches
the live-region end with the colours unresolved) has foreground 6 —
taken from the front-index state, not from the back-index state as the
claim says. -/
theorem paragraph_state_foreground_not_from_back :
    c5_evaluated.map (fun o => o.foreground_at_index) = .ok 6 ∧
    c5_history.history_buffer_back_index_foreground = 9 ∧
    c5_history.history_buffer_front_index_foreground = 6 ∧
    (Except.ok 6 : Except HErr Int) ≠ .ok 9 := by decide

/-- C5 (amended): whenever the backward walk of the paragraph-state
evaluation takes a step that hits the live-region end
(`decrement_buffer_pointer` returns NULL) with attributes still
unresolved, the unresolved font and style are taken from the back-index
state while the unresolved foreground and background are both taken
from the front-index state; on the concrete scenario the evaluated
state is `(1, 0, 6, 2)` with foreground 6 from the front state (the
back state's foreground is white). -/
theorem paragraph_state_end_fallback :
    (∀ (h : OUTPUTHISTORY) (index lw : Nat) (i2 i3 i4 : Option Nat)
      (font style fg bg : Int) (fuel : Nat),
      decrement_buffer_pointer h index lw = none →
      (font = -1 ∨ style = -1 ∨ fg = Z_COLOUR_UNDEFINED ∨
        bg = Z_COLOUR_UNDEFINED) →
      emp_go (fuel + 1) h index lw i2 i3 i4 font style fg bg =
        .ok (if font = -1 then h.history_buffer_back_index_font else font,
          if style = -1 then h.history_buffer_back_index_style else style,
          if fg = Z_COLOUR_UNDEFINED then
            h.history_buffer_front_index_foreground else fg,
          if bg = Z_COLOUR_UNDEFINED then
            h.history_buffer_front_index_background else bg)) ∧
    c5_evaluated.map (fun o => (o.font_at_index, o.style_at_index,
      o.foreground_at_index, o.background_at_index)) = .ok (1, 0, 6, 2) ∧
    c5_history.history_buffer_back_index_foreground = Z_COLOUR_WHITE ∧
    c5_history.history_buffer_front_index_foreground = 6 := by
  refine ⟨?_, by decide, by decide, by decide⟩
  intro h index lw i2 i3 i4 font style fg bg fuel hdec hunres
  unfold emp_go
  simp only [if_pos hunres, hdec, fill_unresolved_from_back]

/-- Witness for the amended C5 theorem: walking back from offset 0 of
`c5_history` with a zero local wrap counter hits the live-region end at
once, and the fallback fills the colours from the front-index state. -/
theorem paragraph_state_end_fallback_witness :
    emp_go 1 c5_history 0 0 none none none (-1) (-1) Z_COLOUR_UNDEFINED
      Z_COLOUR_UNDEFINED = .ok (1, 0, 6, 2) :=
  (paragraph_state_end_fallback.1 c5_history 0 0 none none none (-1) (-1)
    Z_COLOUR_UNDEFINED Z_COLOUR_UNDEFINED 0 (by decide)
    (Or.inl rfl)).trans (by decide)

/-- C6 counterexample: `remove_chars(4)` on `c6_history` (front 10)
succeeds and moves the front to 2 — the walk crosses the FONT record,
whose two body cells each consumed a unit of the count before the
escape added the full record width 3 back.  Returning the front to its
previous value 10 then takes a `store_text` of 8 units, not 4 (writing
4 units only reaches front 6). -/
theorem remove_chars_restore_not_exact :
    (remove_chars_from_history c6_history 4 64).map
      (fun p => (p.1, p.2.z_history_buffer_front_index)) = .ok (0, 2) ∧
    c6_history.z_history_buffer_front_index = 10 ∧
    ((remove_chars_from_history c6_history 4 64).bind (fun p =>
      (store_z_ucs_output_in_history p.2 [119, 119, 119, 119]).map
        (fun h => h.z_history_buffer_front_index))) = .ok 6 ∧
    ((remove_chars_from_history c6_history 4 64).bind (fun p =>
      (store_z_ucs_output_in_history p.2
        [119, 119, 119, 119, 119, 119, 119, 119]).map
        (fun h => h.z_history_buffer_front_index))) = .ok 10 ∧
    (6 : Nat) ≠ 10 := by decide

/-- C7 counterexample: `c7_cursor_at_front` sits exactly on the store's
front index (it was advanced there by a previous repeat); calling
`repeat_paragraphs(1, ...)` on it returns -1, not the 1 the claim
states, and -1 is outside `[0, n]`. -/
theorem repeat_paragraphs_at_front_returns_minus_one :
    (output_repeat_paragraphs c7_history c7_cursor_at_front 1 false true
      100).map (fun r => r.1) = .ok (-1) ∧
    c7_cursor_at_front.current_paragraph_index
      = c7_history.z_history_buffer_front_index ∧
    (Except.ok (-1) : Except HErr Int) ≠ .ok 1 ∧ ¬(0 : Int) ≤ -1 := by
  decide

/-- Every cursor built by `init_history_output` records the requested
validation mode and captures the store's wrap counter and front index
at creation time. -/
theorem init_history_output_fields (h : OUTPUTHISTORY) (fb nv : Bool)
    (o : history_output) (hi : init_history_output h fb nv = some o) :
    o.validation_disabled = nv ∧
    o.validity_wraparounds = h.nof_wraparounds ∧
    o.validity_frontindex = h.z_history_buffer_front_index := by
  unfold init_history_output at hi
  split at hi
  · exact absurd hi (by simp)
  · split at hi
    · dsimp only at hi
      split at hi
      · exact absurd hi (by simp)
      · cases hi
        simp
    · cases hi
      simp

/-- A store whose wrap counter or front index differs from the values a
cursor captured fails the cursor's validation fatally. -/
theorem validate_mismatch_fatal (h : OUTPUTHISTORY) (o : history_output)
    (hm : h.nof_wraparounds ≠ o.validity_wraparounds ∨
      h.z_history_buffer_front_index ≠ o.validity_frontindex) :
    validate_outputhistory h o = .error HErr.noLongerValid := by
  unfold validate_outputhistory validityOk
  rcases hm with hm | hm <;> simp [hm, Ne.symm hm]

/-- C9: once a store's wrap counter or front index differs from what a
validation-enabled cursor captured at creation (as happens after any
store mutation that changes `wraps` or `front`), every cursor operation
— rewind, repeat, state evaluation, remember, restore, front test and
attribute alteration — fails fatally with the history-no-longer-valid
error. -/
theorem invalidated_cursor_operations_fatal
    (h0 h1 : OUTPUTHISTORY) (fb : Bool) (o : history_output) (fuel : Nat)
    (n : Int) (im adv : Bool) (a1 a2 : Int)
    (hinit : init_history_output h0 fb false = some o)
    (hmis : h1.nof_wraparounds ≠ h0.nof_wraparounds ∨
      h1.z_history_buffer_front_index ≠ h0.z_history_buffer_front_index) :
    output_rewind_paragraph h1 o fuel = .error HErr.noLongerValid ∧
    output_repeat_paragraphs h1 o n im adv fuel
      = .error HErr.noLongerValid ∧
    evaluate_metadata_for_paragraph h1 o fuel
      = .error HErr.noLongerValid ∧
    remember_history_output_position h1 o = .error HErr.noLongerValid ∧
    restore_history_output_position h1 o = .error HErr.noLongerValid ∧
    is_output_at_frontindex h1 o = .error HErr.noLongerValid ∧
    alter_last_paragraph_attributes h1 o a1 a2
      = .error HErr.noLongerValid := by
  obtain ⟨hdis, hvw, hvf⟩ := init_history_output_fields h0 fb false o hinit
  have hval : validate_outputhistory h1 o = .error HErr.noLongerValid := by
    apply validate_mismatch_fatal
    rcases hmis with hm | hm
    · exact Or.inl (by rw [hvw]; exact hm)
    · exact Or.inr (by rw [hvf]; exact hm)
  refine ⟨?_, ?_, ?_, ?_, ?_, ?_, ?_⟩ <;>
    simp [output_rewind_paragraph, output_repeat_paragraphs,
      evaluate_metadata_for_paragraph, remember_history_output_position,
      restore_history_output_position, is_output_at_frontindex,
      alter_last_paragraph_attributes, hdis, hval, Except.bind, bind]

/-- Witness for C9: the cursor created from `hello_history` is
invalidated by the one-character store that produced
`hello_x_history`, and all seven operations fail fatally there. -/
theorem invalidated_cursor_operations_fatal_witness :
    output_rewind_paragraph hello_x_history hello_cursor 100
      = .error HErr.noLongerValid ∧
    output_repeat_paragraphs hello_x_history hello_cursor 1 true true 100
      = .error HErr.noLongerValid ∧
    evaluate_metadata_for_paragraph hello_x_history hello_cursor 100
      = .error HErr.noLongerValid ∧
    remember_history_output_position hello_x_history hello_cursor
      = .error HErr.noLongerValid ∧
    restore_history_output_position hello_x_history hello_cursor
      = .error HErr.noLongerValid ∧
    is_output_at_frontindex hello_x_history hello_cursor
      = .error HErr.noLongerValid ∧
    alter_last_paragraph_attributes hello_x_history hello_cursor 7 8
      = .error HErr.noLongerValid :=
  invalidated_cursor_operations_fatal hello_history hello_x_history false
    hello_cursor 100 1 true true 7 8 (by decide) (Or.inr (by decide))

/-- The paragraph-state search loop can fail only by running out of
fuel, never with the validation error. -/
theorem emp_go_no_nlv (h : OUTPUTHISTORY) :
    ∀ (fuel index lw : Nat) (i2 i3 i4 : Option Nat) (f s fg bg : Int),
    emp_go fuel h index lw i2 i3 i4 f s fg bg ≠
      Except.error HErr.noLongerValid := by
  intro fuel
  induction fuel with
  | zero =>
    intro index lw i2 i3 i4 f s fg bg
    simp [emp_go]
  | succ n ih =>
    intro index lw i2 i3 i4 f s fg bg
    unfold emp_go
    split
    · dsimp only
      split
      · simp
      · split
        · split
          · apply ih
          · split
            · apply ih
            · split
              · apply ih
              · apply ih
        · apply ih
    · simp

/-- With validation disabled, `evaluate_metadata_for_paragraph` never
fails with the validation error. -/
theorem evaluate_disabled_no_nlv (h : OUTPUTHISTORY) (o : history_output)
    (fuel : Nat) (hd : o.validation_disabled = true) :
    evaluate_metadata_for_paragraph h o fuel ≠
      Except.error HErr.noLongerValid := by
  unfold evaluate_metadata_for_paragraph
  rw [hd]
  simp only [Bool.true_eq_false, if_false, bind, Except.bind, pure,
    Except.pure]
  split
  · simp
  · split
    · simp
    · split
      · rename_i err heq
        intro hx
        injection hx with hx1
        rw [hx1] at heq
        exact emp_go_no_nlv h fuel o.current_paragraph_index
          o.nof_wraparounds none none none (-1) (-1) Z_COLOUR_UNDEFINED
          Z_COLOUR_UNDEFINED heq
      · simp

/-- The backward paragraph walk can fail only by running out of fuel,
never with the validation error. -/
theorem orp_go_no_nlv (h : OUTPUTHISTORY) :
    ∀ (fuel index lw : Nat) (li li2 li3 : Option Nat) (nc : Int)
      (pa1 pa2 : Option Int),
    orp_go fuel h index lw li li2 li3 nc pa1 pa2 ≠
      Except.error HErr.noLongerValid := by
  intro fuel
  induction fuel with
  | zero =>
    intro index lw li li2 li3 nc pa1 pa2
    simp [orp_go]
  | succ n ih =>
    intro index lw li li2 li3 nc pa1 pa2
    unfold orp_go
    dsimp only
    split
    · simp
    · split
      · simp
      · apply ih

/-- With validation disabled, the main rewind phase never fails with
the validation error. -/
theorem orp_main_no_nlv (h : OUTPUTHISTORY) (o : history_output)
    (index lw fuel : Nat) (hd : o.validation_disabled = true) :
    orp_main h o index lw fuel ≠ Except.error HErr.noLongerValid := by
  unfold orp_main
  simp only [bind, Except.bind, pure, Except.pure]
  cases hgo : orp_go fuel h index lw none none none 0 none none with
  | error e =>
    intro hx
    injection hx with hx1
    rw [hx1] at hgo
    exact orp_go_no_nlv h fuel index lw none none none 0 none none hgo
  | ok w =>
    cases w with
    | hitEnd pa1 pa2 => simp
    | found a b c pa1 pa2 =>
      dsimp only
      split
      · rename_i err heq
        intro hx
        injection hx with hx1
        rw [hx1] at heq
        refine evaluate_disabled_no_nlv h _ fuel ?_ heq
        simp [hd]
      · simp

/-- With validation disabled, the post-newline-skip rewind phase never
fails with the validation error. -/
theorem orp_after_skip_no_nlv (h : OUTPUTHISTORY) (o : history_output)
    (index lw fuel : Nat) (hd : o.validation_disabled = true) :
    orp_after_skip h o index lw fuel ≠
      Except.error HErr.noLongerValid := by
  unfold orp_after_skip
  split
  · simp
  · split
    · simp
    · split
      · simp
      · exact orp_main_no_nlv h o _ _ fuel hd

/-- With validation disabled, `output_rewind_paragraph` never fails
with the validation error: the only validation in it is the guarded
`validate_outputhistory` call at its head. -/
theorem rewind_disabled_no_nlv (h : OUTPUTHISTORY) (o : history_output)
    (fuel : Nat) (hd : o.validation_disabled = true) :
    output_rewind_paragraph h o fuel ≠
      Except.error HErr.noLongerValid := by
  unfold output_rewind_paragraph
  rw [hd]
  simp only [Bool.true_eq_false, if_false, bind, Except.bind, pure,
    Except.pure]
  split
  · simp
  · split
    · simp
    · split
      · split
        · split
          · simp
          · exact orp_after_skip_no_nlv h _ _ _ fuel (by simp [hd])
        · exact orp_after_skip_no_nlv h _ _ _ fuel (by simp [hd])
      · split
        · simp
        · exact orp_main_no_nlv h _ _ _ fuel (by simp [hd])

/-- The forward repeat loop can fail only with invalid-parameter (bad
metadata in the buffer) or out-of-fuel, never with the validation
error. -/
theorem orep_metadata_no_nlv (h : OUTPUTHISTORY) (o : history_output)
    (im : Bool) (ptr : Nat) (events : List TargetEvent) :
    orep_metadata h o im ptr events ≠
      Except.error HErr.noLongerValid := by
  unfold orep_metadata
  dsimp only
  repeat' split
  all_goals intro hx
  all_goals first
    | exact Except.noConfusion hx
    | exact HErr.noConfusion (Except.error.inj hx)

/-- The forward repeat loop can fail only with invalid-parameter (bad
metadata in the buffer) or out-of-fuel, never with the validation
error. -/
theorem orep_go_no_nlv (h : OUTPUTHISTORY) :
    ∀ (fuel : Nat) (o : history_output) (n : Int) (im : Bool) (ptr : Nat)
      (bufAcc : List Int) (events : List TargetEvent),
    orep_go fuel h o n im ptr bufAcc events ≠
      Except.error HErr.noLongerValid := by
  intro fuel
  induction fuel with
  | zero =>
    intro o n im ptr bufAcc events
    unfold orep_go
    dsimp only
    split
    · intro hx
      exact HErr.noConfusion (Except.error.inj hx)
    · intro hx
      exact Except.noConfusion hx
  | succ k ih =>
    intro o n im ptr bufAcc events
    unfold orep_go
    dsimp only
    by_cases hn : n > 0
    · rw [if_pos hn]
      repeat' split
      all_goals first
        | apply ih
        | (intro hx; exact Except.noConfusion hx)
        | (intro hx; exact HErr.noConfusion (Except.error.inj hx))
        | (rename_i e heq; intro hx; injection hx with hx1;
           rw [hx1] at heq;
           exact orep_metadata_no_nlv h _ im _ _ heq)
    · rw [if_neg hn]
      intro hx
      exact Except.noConfusion hx

/-- A bound computation over `Except` cannot fail with the validation
error when neither the first computation nor the continuation can. -/
theorem bind_no_nlv {A B : Type} (x : Except HErr A)
    (g : A → Except HErr B)
    (hok : ∀ v, g v ≠ Except.error HErr.noLongerValid)
    (hx : x ≠ Except.error HErr.noLongerValid) :
    (x >>= g) ≠ Except.error HErr.noLongerValid := by
  cases x with
  | error e =>
    intro hh
    exact hx (by simpa [bind, Except.bind] using hh)
  | ok v =>
    intro hh
    exact hok v (by simpa [bind, Except.bind] using hh)

/-- With validation disabled, `output_repeat_paragraphs` never fails
with the validation error. -/
theorem repeat_disabled_no_nlv (h : OUTPUTHISTORY) (o : history_output)
    (n : Int) (im adv : Bool) (fuel : Nat)
    (hd : o.validation_disabled = true) :
    output_repeat_paragraphs h o n im adv fuel ≠
      Except.error HErr.noLongerValid := by
  unfold output_repeat_paragraphs
  rw [hd]
  simp only [Bool.true_eq_false, if_false, pure_bind]
  split
  · refine bind_no_nlv _ _ ?_ ?_
    · intro o2
      split
      all_goals split
      all_goals first
        | refine bind_no_nlv _ _ (fun y hx => Except.noConfusion hx)
            (fun hx => Except.noConfusion hx)
        | refine bind_no_nlv _ _ (fun y hx => Except.noConfusion hx)
            (orep_go_no_nlv h fuel _ _ im _ [] _)
    · exact evaluate_disabled_no_nlv h o fuel hd
  · refine bind_no_nlv _ _ ?_ (fun hx => Except.noConfusion hx)
    intro o2
    split
    all_goals split
    all_goals first
      | refine bind_no_nlv _ _ (fun y hx => Except.noConfusion hx)
          (fun hx => Except.noConfusion hx)
      | refine bind_no_nlv _ _ (fun y hx => Except.noConfusion hx)
          (orep_go_no_nlv h fuel _ _ im _ [] _)

/-- C10: `alter_last_paragraph_attributes` validates its cursor
unconditionally — on a NO_VALIDATION cursor whose store's front index
or wrap counter has changed it fails fatally with the
history-no-longer-valid error — while every other operation on that
same cursor proceeds without validation: remember, restore and the
front test succeed outright, and rewind, repeat and state evaluation
can never produce the validation error. -/
theorem alter_validates_even_without_validation
    (h : OUTPUTHISTORY) (o : history_output) (a1 a2 n : Int)
    (im adv : Bool) (fuel : Nat)
    (hd : o.validation_disabled = true)
    (hm : h.nof_wraparounds ≠ o.validity_wraparounds ∨
      h.z_history_buffer_front_index ≠ o.validity_frontindex) :
    alter_last_paragraph_attributes h o a1 a2
      = Except.error HErr.noLongerValid ∧
    exceptIsOk (remember_history_output_position h o) = true ∧
    exceptIsOk (restore_history_output_position h o) = true ∧
    exceptIsOk (is_output_at_frontindex h o) = true ∧
    output_rewind_paragraph h o fuel ≠ Except.error HErr.noLongerValid ∧
    output_repeat_paragraphs h o n im adv fuel
      ≠ Except.error HErr.noLongerValid ∧
    evaluate_metadata_for_paragraph h o fuel
      ≠ Except.error HErr.noLongerValid := by
  have hv := validate_mismatch_fatal h o hm
  refine ⟨?_, ?_, ?_, ?_, rewind_disabled_no_nlv h o fuel hd,
    repeat_disabled_no_nlv h o n im adv fuel hd,
    evaluate_disabled_no_nlv h o fuel hd⟩
  · simp [alter_last_paragraph_attributes, hv, bind, Except.bind]
  · simp [remember_history_output_position, hd, Bool.true_eq_false,
      exceptIsOk]
  · simp [restore_history_output_position, hd, Bool.true_eq_false,
      exceptIsOk]
  · simp [is_output_at_frontindex, hd, Bool.true_eq_false, exceptIsOk]

/-- Witness for C10: the NO_VALIDATION cursor on `hello_history` after
the store mutation that produced `hello_x_history`. -/
theorem alter_validates_even_without_validation_witness :
    alter_last_paragraph_attributes hello_x_history hello_cursor_nv 7 8
      = Except.error HErr.noLongerValid ∧
    exceptIsOk (remember_history_output_position hello_x_history
      hello_cursor_nv) = true ∧
    exceptIsOk (restore_history_output_position hello_x_history
      hello_cursor_nv) = true ∧
    exceptIsOk (is_output_at_frontindex hello_x_history hello_cursor_nv)
      = true ∧
    output_rewind_paragraph hello_x_history hello_cursor_nv 100
      ≠ Except.error HErr.noLongerValid ∧
    output_repeat_paragraphs hello_x_history hello_cursor_nv 1 true true
      100 ≠ Except.error HErr.noLongerValid ∧
    evaluate_metadata_for_paragraph hello_x_history hello_cursor_nv 100
      ≠ Except.error HErr.noLongerValid :=
  alter_validates_even_without_validation hello_x_history hello_cursor_nv
    7 8 1 true true 100 (by decide) (Or.inr (by decide))

/-- On a store that has never wrapped, `decrement_buffer_pointer` with a
zero local wrap counter simply steps the offset down, failing at the
buffer start. -/
theorem dec_linear (h : OUTPUTHISTORY) (hw : h.nof_wraparounds = 0)
    (ptr : Nat) :
    decrement_buffer_pointer h ptr 0 =
      if ptr = 0 then none else some (ptr - 1, 0) := by
  unfold decrement_buffer_pointer
  simp [hw]

/-- On a linear store whose cells below `ptr` are all non-escape, a
successful `remove_chars` walk of `n` logical characters lands exactly
`n` cells lower (and `n` never exceeds `ptr`). -/
theorem remove_chars_go_linear (h : OUTPUTHISTORY)
    (hw : h.nof_wraparounds = 0) :
    ∀ (fuel : Nat) (n : Int) (ptr : Nat) (last : Int) (res : Nat × Nat),
    0 ≤ n →
    (∀ i, i < ptr → readBuf h i ≠ HISTORY_METADATA_ESCAPE) →
    remove_chars_go fuel h ptr 0 n last = Except.ok (some res) →
    res = (ptr - n.toNat, 0) ∧ n ≤ (ptr : Int) := by
  intro fuel
  induction fuel with
  | zero =>
    intro n ptr last res hn hesc hok
    unfold remove_chars_go at hok
    split at hok
    · exact absurd hok (by simp)
    · simp only [Except.ok.injEq, Option.some.injEq] at hok
      have hn0 : n = 0 := by omega
      subst hn0
      exact ⟨by rw [← hok]; simp, by omega⟩
  | succ k ih =>
    intro n ptr last res hn hesc hok
    unfold remove_chars_go at hok
    split at hok
    · rename_i hngt
      rw [dec_linear h hw] at hok
      by_cases hp0 : ptr = 0
      · rw [if_pos hp0] at hok
        exact absurd hok (by simp)
      · rw [if_neg hp0] at hok
        dsimp only at hok
        rw [if_neg (by
          intro hcontra
          exact hesc (ptr - 1) (by omega) hcontra.1)] at hok
        have hrec := ih (n - 1) (ptr - 1) (readBuf h (ptr - 1)) res
          (by omega) (fun i hi => hesc i (by omega)) hok
        obtain ⟨h1, h2⟩ := hrec
        constructor
        · rw [h1]
          have : ptr - 1 - (n - 1).toNat = ptr - n.toNat := by omega
          rw [this]
        · omega
    · rename_i hngt
      simp only [Except.ok.injEq, Option.some.injEq] at hok
      have hn0 : n = 0 := by omega
      subst hn0
      exact ⟨by rw [← hok]; simp, by omega⟩

/-- Storing `data` into a linear store with enough room (and no state
block falling due) advances the front index by exactly the number of
units stored. -/
theorem store_text_linear_front (h2 : OUTPUTHISTORY) (data : List Int)
    (hw : h2.nof_wraparounds = 0)
    (hfit : data.length + h2.z_history_buffer_front_index ≤
      h2.z_history_buffer_size)
    (hmax : data.length < h2.z_history_maximum_buffer_size)
    (hblock : h2.last_metadata_block_index =
      ((h2.z_history_buffer_front_index + data.length : Nat) : Int) -
        ((h2.z_history_buffer_front_index + data.length : Nat) : Int) %
          Z_HISTORY_METADATA_STATE_BLOCK_SIZE) :
    (store_z_ucs_output_in_history h2 data).map
      (fun x => x.z_history_buffer_front_index) =
      Except.ok (h2.z_history_buffer_front_index + data.length) := by
  unfold store_z_ucs_output_in_history
  by_cases h0 : data.length = 0
  · rw [if_pos h0]
    simp [h0, Except.map]
  · rw [if_neg h0]
    have hsz : h2.z_history_buffer_size ≠ 0 := by omega
    have havail : get_buffer_space_available h2 =
        ((h2.z_history_buffer_size : Int) - 1) -
          (h2.z_history_buffer_front_index : Int) + 1 := by
      unfold get_buffer_space_available
      rw [if_neg hsz, if_pos hw]
    unfold store_data_in_history store_data_raw
    dsimp only
    rw [if_neg (by omega :
      ¬ data.length ≥ h2.z_history_maximum_buffer_size)]
    rw [if_neg (by rw [havail]; push_cast; omega :
      ¬ get_buffer_space_available h2 < (data.length : Int))]
    try dsimp only
    rw [if_neg (by omega : ¬ h2.z_history_buffer_size < data.length)]
    try dsimp only
    rw [if_pos hw]
    try dsimp only
    have hltw : (if ((h2.z_history_buffer_size : Int) - 1) -
          (h2.z_history_buffer_front_index : Int) + 1 >
          (data.length : Int) then
        data.length
      else (((h2.z_history_buffer_size : Int) - 1) -
          (h2.z_history_buffer_front_index : Int) + 1).toNat)
        = data.length := by
      split <;> omega
    rw [hltw]
    rw [if_pos (by omega : data.length > 0)]
    rw [if_pos rfl]
    simp only [bind, Except.bind]
    rw [if_pos trivial]
    unfold write_metadata_state_block_if_necessary
    dsimp only
    rw [if_neg (by
      rw [hblock]
      push_cast
      omega)]
    simp [Except.map, bind, Except.bind]

/-- C6 (amended): on a store that has never wrapped and whose cells
below the front index contain no metadata escape, a successful
`remove_chars(n)` moves the front back by exactly `n` units, and a
subsequent `store_text` of exactly `n` text units returns the front to
its previous value (the counterexample shows this fails as soon as a
metadata record is crossed: its body cells count against `n` while its
escape adds the full record width back). -/
theorem remove_chars_no_metadata_exact
    (h : OUTPUTHISTORY) (n : Int) (fuel : Nat) (data : List Int)
    (hw : h.nof_wraparounds = 0)
    (hf : h.z_history_buffer_front_index ≤ h.z_history_buffer_size)
    (hesc : ∀ i, i < h.z_history_buffer_front_index →
      readBuf h i ≠ HISTORY_METADATA_ESCAPE)
    (hn : 0 ≤ n)
    (hmax : n < (h.z_history_maximum_buffer_size : Int))
    (hblock : h.last_metadata_block_index =
      (h.z_history_buffer_front_index : Int) -
        (h.z_history_buffer_front_index : Int) %
          Z_HISTORY_METADATA_STATE_BLOCK_SIZE)
    (hlen : (data.length : Int) = n)
    (hsucc : (remove_chars_from_history h n fuel).map Prod.fst
      = Except.ok 0) :
    (remove_chars_from_history h n fuel).map
      (fun p => (p.2.z_history_buffer_front_index : Int))
      = Except.ok ((h.z_history_buffer_front_index : Int) - n) ∧
    ((remove_chars_from_history h n fuel).bind (fun p =>
      (store_z_ucs_output_in_history p.2 data).map
        (fun x => x.z_history_buffer_front_index)))
      = Except.ok h.z_history_buffer_front_index := by
  unfold remove_chars_from_history at hsucc ⊢
  rw [hw] at hsucc ⊢
  cases hgo : remove_chars_go fuel h h.z_history_buffer_front_index 0 n 0
      with
  | error e =>
    rw [hgo] at hsucc
    exact absurd hsucc (by simp [bind, Except.bind, Except.map])
  | ok w =>
    rw [hgo] at hsucc
    cases w with
    | none =>
      exact absurd hsucc (by simp [bind, Except.bind, Except.map])
    | some res =>
      obtain ⟨hres, hle⟩ := remove_chars_go_linear h hw fuel n
        h.z_history_buffer_front_index 0 res hn (fun i hi => hesc i hi) hgo
      subst hres
      have hlen2 : data.length = n.toNat := by omega
      constructor
      · simp only [bind, Except.bind, Except.map]
        simp only [Except.ok.injEq]
        push_cast
        omega
      · simp only [bind, Except.bind]
        have hst := store_text_linear_front
          { h with
            z_history_buffer_front_index :=
              h.z_history_buffer_front_index - n.toNat
            nof_wraparounds := 0 } data rfl
          (by simp only; omega) (by simp only; omega)
          (by
            simp only
            have heq : h.z_history_buffer_front_index - n.toNat
                + data.length = h.z_history_buffer_front_index := by omega
            rw [heq]
            exact hblock)
        rw [hst]
        simp only [Except.ok.injEq]
        omega

/-- Witness for the amended C6 theorem: removing 2 characters from the
metadata-free store "abc" moves the front from 3 to 1, and storing two
units brings it back to 3. -/
theorem remove_chars_no_metadata_exact_witness :
    (remove_chars_from_history c6_witness_history 2 32).map
      (fun p => (p.2.z_history_buffer_front_index : Int))
      = Except.ok
        ((c6_witness_history.z_history_buffer_front_index : Int) - 2) ∧
    ((remove_chars_from_history c6_witness_history 2 32).bind (fun p =>
      (store_z_ucs_output_in_history p.2 [100, 101]).map
        (fun x => x.z_history_buffer_front_index)))
      = Except.ok c6_witness_history.z_history_buffer_front_index :=
  remove_chars_no_metadata_exact c6_witness_history 2 32 [100, 101]
    (by decide) (by decide) (by decide) (by decide) (by decide)
    (by decide) (by decide) (by decide)

/-- The forward repeat loop only ever decrements its paragraph budget,
one newline at a time, and stops before the budget can go negative: a
successful run from a non-negative budget `n` returns a value between 0
and `n`. -/
theorem orep_go_bounds (h : OUTPUTHISTORY) :
    ∀ (fuel : Nat) (o : history_output) (n : Int) (im : Bool) (ptr : Nat)
      (bufAcc : List Int) (events : List TargetEvent) (r : Int)
      (o2 : history_output) (p : Nat) (ev2 : List TargetEvent),
    0 ≤ n →
    orep_go fuel h o n im ptr bufAcc events = Except.ok (r, o2, p, ev2) →
    0 ≤ r ∧ r ≤ n := by
  intro fuel
  induction fuel with
  | zero =>
    intro o n im ptr bufAcc events r o2 p ev2 hn hok
    unfold orep_go at hok
    dsimp only at hok
    split at hok
    · exact absurd hok (by simp)
    · simp only [Except.ok.injEq, Prod.mk.injEq] at hok
      obtain ⟨h1, -⟩ := hok
      omega
  | succ k ih =>
    intro o n im ptr bufAcc events r o2 p ev2 hn hok
    unfold orep_go at hok
    dsimp only at hok
    by_cases hngt : n > 0
    · rw [if_pos hngt] at hok
      repeat' split at hok
      all_goals first
        | (exact Except.noConfusion hok)
        | (simp only [Except.ok.injEq, Prod.mk.injEq] at hok;
           obtain ⟨h1, -⟩ := hok; omega)
        | (have hb := ih _ _ _ _ _ _ _ _ _ _ (by omega) hok; omega)
    · rw [if_neg hngt] at hok
      simp only [Except.ok.injEq, Prod.mk.injEq] at hok
      obtain ⟨h1, -⟩ := hok
      omega

/-- Paragraph-state evaluation never moves the cursor: a successful
`evaluate_metadata_for_paragraph` leaves `current_paragraph_index` (and
the validation-mode flag) unchanged. -/
theorem evaluate_preserves_current (h : OUTPUTHISTORY)
    (o : history_output) (fuel : Nat) (o2 : history_output)
    (hok : evaluate_metadata_for_paragraph h o fuel = Except.ok o2) :
    o2.current_paragraph_index = o.current_paragraph_index := by
  unfold evaluate_metadata_for_paragraph at hok
  dsimp only at hok
  split at hok
  · cases hval : validate_outputhistory h o with
    | error e =>
      rw [hval] at hok
      exact absurd hok (by simp [bind, Except.bind])
    | ok u =>
      rw [hval] at hok
      simp only [bind, Except.bind] at hok
      split at hok
      · injection hok with h1
        rw [← h1]
      · split at hok
        · injection hok with h1
          rw [← h1]
        · split at hok
          · exact Except.noConfusion hok
          · injection hok with h1
            rw [← h1]
  · simp only [bind, Except.bind, pure, Except.pure] at hok
    split at hok
    · injection hok with h1
      rw [← h1]
    · split at hok
      · injection hok with h1
        rw [← h1]
      · split at hok
        · exact Except.noConfusion hok
        · injection hok with h1
          rw [← h1]

/-- Inversion for a successful monadic bind on `Except`: the first
action succeeded and the continuation succeeded on its value. -/
theorem except_bind_ok {A B : Type} (m : Except HErr A)
    (f : A → Except HErr B) (b : B)
    (hok : m >>= f = Except.ok b) :
    ∃ a, m = Except.ok a ∧ f a = Except.ok b := by
  cases m with
  | error e => exact absurd hok (by simp [bind, Except.bind])
  | ok a =>
    refine ⟨a, rfl, ?_⟩
    simpa [bind, Except.bind] using hok

/-- Inversion for the validation guard that heads the cursor
operations: whether or not validation is enabled, a successful run
means the continuation succeeded. -/
theorem guard_bind_ok {B : Type} (c : Prop) [Decidable c]
    (m : Except HErr Unit) (k : Unit → Except HErr B) (b : B)
    (hok : (if c then m >>= k else pure () >>= k) = Except.ok b) :
    k () = Except.ok b := by
  split at hok
  · obtain ⟨u, hm, hk⟩ := except_bind_ok _ _ _ hok
    cases u
    exact hk
  · rw [pure_bind] at hok
    exact hok

/-- Inversion for a successful bind whose action is a two-way branch:
the do-notation join point places the continuation in both arms, so a
successful run means the chosen arm succeeded and the continuation
succeeded on its value. -/
theorem ite_bind_ok {A B : Type} (c : Prop) [Decidable c]
    (m1 m2 : Except HErr A) (k : A → Except HErr B) (b : B)
    (hok : (if c then m1 >>= k else m2 >>= k) = Except.ok b) :
    ∃ a, (if c then m1 else m2) = Except.ok a ∧ k a = Except.ok b := by
  by_cases hc : c
  · rw [if_pos hc] at hok ⊢
    exact except_bind_ok _ _ _ hok
  · rw [if_neg hc] at hok ⊢
    exact except_bind_ok _ _ _ hok

/-- C7 (amended): for `n ≥ 0`, a successful `output_repeat_paragraphs`
returns -1 — not `n` — whenever the cursor's `current_paragraph_index`
already equals the store's front index, and otherwise returns a value
in `[0, n]`. -/
theorem repeat_paragraphs_not_delivered_range (h : OUTPUTHISTORY)
    (o : history_output) (n : Int) (im adv : Bool) (fuel : Nat)
    (r : Int) (o2 : history_output) (ev : List TargetEvent)
    (hn : 0 ≤ n)
    (hok : output_repeat_paragraphs h o n im adv fuel
      = Except.ok (r, o2, ev)) :
    (o.current_paragraph_index = h.z_history_buffer_front_index →
      r = -1) ∧
    (o.current_paragraph_index ≠ h.z_history_buffer_front_index →
      0 ≤ r ∧ r ≤ n) := by
  unfold output_repeat_paragraphs at hok
  try dsimp only at hok
  replace hok := guard_bind_ok _ _ _ _ hok
  try dsimp only at hok
  obtain ⟨o1, hev, hok⟩ := ite_bind_ok _ _ _ _ _ hok
  have hcur : o1.current_paragraph_index = o.current_paragraph_index := by
    by_cases him : im = true
    · rw [if_pos him] at hev
      exact evaluate_preserves_current h o fuel o1 hev
    · rw [if_neg him] at hev
      injection hev with h1
      rw [← h1]
  try dsimp only at hok
  simp only [apply_ite history_output.current_paragraph_index] at hok
  try dsimp only at hok
  simp only [ite_self] at hok
  rw [hcur] at hok
  obtain ⟨x, hm, hok⟩ := ite_bind_ok _ _ _ _ _ hok
  by_cases hfr : o.current_paragraph_index = h.z_history_buffer_front_index
  · rw [if_pos hfr] at hm
    refine ⟨fun _ => ?_, fun hne => absurd hfr hne⟩
    injection hm with h1
    rw [← h1] at hok
    try dsimp only at hok
    simp only [Except.ok.injEq, Prod.mk.injEq] at hok
    obtain ⟨h2, -⟩ := hok
    omega
  · rw [if_neg hfr] at hm
    refine ⟨fun hfe => absurd hfe hfr, fun _ => ?_⟩
    obtain ⟨rn, oo, pp, evv⟩ := x
    have hb := orep_go_bounds h fuel _ n im _ [] _ rn oo pp evv hn hm
    try dsimp only at hok
    simp only [Except.ok.injEq, Prod.mk.injEq] at hok
    obtain ⟨h2, -⟩ := hok
    omega

/-- Concrete run for the amended repeat theorem: the first advancing
repeat on the "A\n" store starts away from the front and returns a
value in `[0, 1]`. -/
theorem repeat_paragraphs_not_delivered_range_witness :
    (c7_cursor.current_paragraph_index
        = c7_history.z_history_buffer_front_index → c7_repeat_r = -1) ∧
    (c7_cursor.current_paragraph_index
        ≠ c7_history.z_history_buffer_front_index →
      0 ≤ c7_repeat_r ∧ c7_repeat_r ≤ 1) :=
  repeat_paragraphs_not_delivered_range c7_history c7_cursor 1 false true
    100 c7_repeat_r c7_repeat_cursor c7_repeat_events (by decide)
    (by decide)
